import Mathlib

/-!
Verification of the fantasy-basketball assistant (TypeScript, Next.js).

This file gives a shallow embedding of the data model and the pure logic of
the repository and proves properties of it:

* `src/types/index.ts`, `src/types/espn.ts` — data model (structures below);
* `src/lib/dataTransform.ts` — `transformPlayer`, `transformTeam`,
  `transformFreeAgents`, `buildScheduleIndex`, `buildStatusIndex`,
  `buildLeagueSnapshot`, `calculateSnapshotDiff`;
* `src/lib/smartAlerts.ts` — `generateSmartAlerts`, `hasActionableAlerts`;
* `src/lib/optimizer.ts` — `getWaiverRecommendations`,
  `generateWeeklyStreamingPlan`;
* `src/lib/injuryTracker.ts` — `getInjuryRiskAssessment`, `formatInjuryRisk`;
* `src/lib/storage.ts` — the file-based storage adapter as explicit state
  passing over a `FileStore` value;
* `src/app/api/watchlist/route.ts`, `src/app/api/refresh/route.ts` — the
  pure decision cores of the POST/DELETE/GET handlers.

Conventions of the embedding:

* JavaScript numbers are modelled by `ℚ` where the code does fractional
  arithmetic (stat averages, scores) and by `Int`/`Nat` where the code only
  ever holds integers (ids, timestamps, counts).
* A JavaScript `Record`/`Map` is an association list `List (κ × β)`;
  `assocGet` is property lookup and `assocSet` is property assignment
  (overwrite in place, append if absent), matching object semantics.
* `undefined`/`null` and optional fields are `Option`.
* Date strings (`YYYY-MM-DD`) are modelled as day numbers (`Int`): the code
  only ever builds consecutive days from "today" and uses them as record
  keys, so consecutive integers are a faithful encoding.  The ambient clock
  (`Date.now()` / `new Date()`) is passed explicitly as a `Clock` value.
* Functions that `throw` return `Option`/are given explicit `none` results.
-/

namespace FBA

/-- Association-list lookup, modelling JavaScript property access `m[k]`. -/
def assocGet {κ β : Type} [DecidableEq κ] (m : List (κ × β)) (k : κ) : Option β :=
  match m with
  | [] => none
  | (k2, v) :: rest => if k2 = k then some v else assocGet rest k

/-- Association-list update, modelling JavaScript property assignment
`m[k] = v`: overwrites in place, appends a new key at the end. -/
def assocSet {κ β : Type} [DecidableEq κ] (m : List (κ × β)) (k : κ) (v : β) :
    List (κ × β) :=
  match m with
  | [] => [(k, v)]
  | (k2, v2) :: rest =>
    if k2 = k then (k, v) :: rest else (k2, v2) :: assocSet rest k v

/-- Insert `x` into a sorted list, after every element `y` with `le y x`
(so insertion is stable). -/
def insertSorted {α : Type} (le : α → α → Bool) (x : α) : List α → List α
  | [] => [x]
  | y :: ys => if le y x then y :: insertSorted le x ys else x :: y :: ys

/-- JavaScript `Array.prototype.sort` under a comparator whose induced
total preorder is `le` (`le a b` = "a may come before b").  The sort is
stable (ES2019), and a stable sort under a total preorder is uniquely
determined, so stable insertion sort is a faithful model. -/
def jsSortBy {α : Type} (le : α → α → Bool) (l : List α) : List α :=
  l.foldl (fun acc x => insertSorted le x acc) []

-- ============ Data model (src/types/espn.ts, src/types/index.ts) ============

/-- `PlayerStatus` from `src/types/espn.ts`. -/
inductive PlayerStatus where
  | ACTIVE
  | DAY_TO_DAY
  | OUT
  | INJURY_RESERVE
  | SUSPENSION
  | DOUBTFUL
  | QUESTIONABLE
  | PROBABLE
deriving DecidableEq

/-- Render a `PlayerStatus` as its TypeScript string literal. -/
def PlayerStatus.asString : PlayerStatus → String
  | .ACTIVE => "ACTIVE"
  | .DAY_TO_DAY => "DAY_TO_DAY"
  | .OUT => "OUT"
  | .INJURY_RESERVE => "INJURY_RESERVE"
  | .SUSPENSION => "SUSPENSION"
  | .DOUBTFUL => "DOUBTFUL"
  | .QUESTIONABLE => "QUESTIONABLE"
  | .PROBABLE => "PROBABLE"

/-- `Player.ownership` from `src/types/index.ts`. -/
structure Ownership where
  percentOwned : ℚ
  percentChange : ℚ
  percentStarted : ℚ
deriving DecidableEq

/-- `PlayerSeasonStats` from `src/types/index.ts`. -/
structure PlayerSeasonStats where
  seasonAvg : Option ℚ := none
  projectedAvg : Option ℚ := none
  projectedTotal : Option ℚ := none
  gamesPlayed : Option ℚ := none
deriving DecidableEq

/-- `Player` from `src/types/index.ts` (fields the logic reads). -/
structure Player where
  id : Int
  name : String
  firstName : String := ""
  lastName : String := ""
  nbaTeamId : Int
  nbaTeamAbbrev : Option String := none
  positions : List String := []
  eligibleSlots : List Int := []
  status : PlayerStatus := .ACTIVE
  injuryNote : Option String := none
  ownership : Option Ownership := none
  stats : Option PlayerSeasonStats := none
deriving DecidableEq

/-- `RosterEntry` from `src/types/index.ts`. -/
structure RosterEntry where
  playerId : Int
  player : Player
  lineupSlot : String := ""
  lineupSlotId : Int
  acquisitionDate : Int := 0
  appliedTotal : Option ℚ := none
deriving DecidableEq

/-- `Team` from `src/types/index.ts` (fields the logic reads); the source
field `abbrev` is spelled `abbr` here because `abbrev` is a Lean keyword. -/
structure Team where
  id : Int
  abbr : String := ""
  name : String := ""
  nickname : Option String := none
  isMyTeam : Bool := false
  roster : Option (List RosterEntry) := none
deriving DecidableEq

/-- `FreeAgentEntry` from `src/types/index.ts`. -/
structure FreeAgentEntry where
  player : Player
  score : ℚ
  projectedPointsNext7 : ℚ := 0
  gamesNext7 : Nat := 0
  recentTrend : ℚ := 0
  reasonCodes : List String := []
deriving DecidableEq

/-- `Matchup` from `src/types/index.ts`. -/
structure Matchup where
  id : Int
  week : Int
  homeTeamId : Int
  awayTeamId : Option Int := none
  homePoints : ℚ := 0
  awayPoints : Option ℚ := none
  isMyMatchup : Bool := false
deriving DecidableEq

/-- `NBATeamSchedule` from `src/types/index.ts`; `gamesByDay` is keyed by
day number (the code keys by `YYYY-MM-DD` string). -/
structure NBATeamSchedule where
  teamId : Int
  teamAbbrev : String := ""
  gamesThisWeek : Nat := 0
  gamesNext7Days : Nat := 0
  gamesByDay : List (Int × Bool) := []
deriving DecidableEq

/-- Entry of `LeagueSnapshot.statusIndex` from `src/types/index.ts`. -/
structure StatusEntry where
  status : PlayerStatus
  injuryNote : Option String := none
deriving DecidableEq

/-- `StatusChange` from `src/types/index.ts`. -/
structure StatusChange where
  playerId : Int
  playerName : String
  previousStatus : PlayerStatus
  currentStatus : PlayerStatus
  isMyPlayer : Bool
  injuryNote : Option String := none
  timestamp : Int
deriving DecidableEq

/-- `LeagueSnapshot` from `src/types/index.ts`. -/
structure LeagueSnapshot where
  fetchedAt : Int
  leagueId : Int
  seasonId : Int
  week : Int
  scoringPeriodId : Int := 0
  teams : List Team
  myTeamId : Int
  matchups : List Matchup := []
  freeAgentsTopN : List FreeAgentEntry
  statusIndex : List (Int × StatusEntry)
  scheduleIndex : List (Int × NBATeamSchedule)
deriving DecidableEq

/-- `SnapshotDiff` from `src/types/index.ts`. -/
structure SnapshotDiff where
  statusChanges : List StatusChange
  newTopWaiverCandidates : List FreeAgentEntry
  removedTopWaiverCandidates : List FreeAgentEntry
  weekChanged : Bool
  significantChanges : Bool
deriving DecidableEq

/-- `Watchlist` from `src/types/index.ts`. -/
structure Watchlist where
  playerIds : List Int
  lastUpdated : Int
deriving DecidableEq

/-- Alert priority (`'HIGH' | 'MEDIUM' | 'LOW'`). -/
inductive Priority where
  | HIGH
  | MEDIUM
  | LOW
deriving DecidableEq

/-- `SmartAlertType` from `src/types/index.ts`. -/
inductive SmartAlertType where
  | ROSTER_INJURY
  | ROSTER_RETURN
  | TEAMMATE_INJURY
  | TEAMMATE_RETURN
  | WATCHLIST_OPPORTUNITY
  | HOT_WAIVER_ADD
  | WEEKLY_SUMMARY
deriving DecidableEq

/-- `SmartAlert` from `src/types/index.ts`. -/
structure SmartAlert where
  type : SmartAlertType
  priority : Priority
  title : String
  playerName : Option String := none
  teamAbbrev : Option String := none
  details : String
  action : Option String := none
  relatedPlayers : Option (List String) := none
  timestamp : Int
deriving DecidableEq

/-- `LeagueTransaction.type` from `src/types/index.ts`. -/
inductive TxType where
  | ADD
  | DROP
  | TRADE
deriving DecidableEq

/-- `LeagueTransaction` from `src/types/index.ts`. -/
structure LeagueTransaction where
  teamId : Int
  teamName : Option String := none
  type : TxType
  playerId : Int
  playerName : Option String := none
  playerSeasonAvg : Option ℚ := none
  playerTeamAbbrev : Option String := none
  timestamp : Int
deriving DecidableEq

/-- The ambient clock: `Date.now()` in milliseconds and the current day
number (what `new Date().toISOString().split('T')[0]` denotes). -/
structure Clock where
  nowMs : Int
  today : Int
deriving DecidableEq

-- ============ Watchlist route (src/app/api/watchlist/route.ts) ============

/-- The empty string (used where the code writes `''`). -/
def emptyStr : String := ""

/-- Decision core of `POST /api/watchlist` (lines 74-83 of the route): take
the stored watchlist (or a fresh empty one) and add `playerId` if it is not
already present. -/
def watchlistPost (existing : Option Watchlist) (playerId : Int) (clock : Clock) :
    Watchlist :=
  let watchlist := existing.getD { playerIds := [], lastUpdated := clock.nowMs }
  if watchlist.playerIds.contains playerId then watchlist
  else { playerIds := watchlist.playerIds ++ [playerId], lastUpdated := clock.nowMs }

/-- Decision core of `DELETE /api/watchlist` (lines 121-135 of the route):
filter `playerId` out of the stored list (empty result if nothing stored). -/
def watchlistDelete (existing : Option Watchlist) (playerId : Int) (clock : Clock) :
    Watchlist :=
  match existing with
  | none => { playerIds := [], lastUpdated := clock.nowMs }
  | some w =>
    { playerIds := w.playerIds.filter (fun id => id ≠ playerId),
      lastUpdated := clock.nowMs }

-- ============ File storage (src/lib/storage.ts, fileStorage) ============

/-- `MAX_HISTORY_LENGTH` from `src/lib/storage.ts`. -/
def MAX_HISTORY_LENGTH : Nat := 50

/-- The relevant contents of the `.data/` directory used by `fileStorage`,
keyed the way `getKeys` builds file names: `latest` and `history` by
`(leagueId, seasonId)`, individual snapshots by
`(leagueId, seasonId, timestamp)`. -/
structure FileStore where
  latestFiles : List ((Int × Int) × LeagueSnapshot) := []
  historyFiles : List ((Int × Int) × List Int) := []
  snapshotFiles : List ((Int × Int × Int) × LeagueSnapshot) := []
deriving DecidableEq

/-- `fileStorage.storeSnapshot`: write the snapshot file, overwrite
`latest`, prepend `fetchedAt` to the history and truncate it to
`MAX_HISTORY_LENGTH`. -/
def fileStoreSnapshot (snapshot : LeagueSnapshot) (st : FileStore) : FileStore :=
  let key := (snapshot.leagueId, snapshot.seasonId)
  let snapshotFiles :=
    assocSet st.snapshotFiles (snapshot.leagueId, snapshot.seasonId, snapshot.fetchedAt)
      snapshot
  let latestFiles := assocSet st.latestFiles key snapshot
  let history0 := (assocGet st.historyFiles key).getD []
  let history1 := snapshot.fetchedAt :: history0
  let history2 :=
    if MAX_HISTORY_LENGTH < history1.length then history1.take MAX_HISTORY_LENGTH
    else history1
  { latestFiles := latestFiles,
    historyFiles := assocSet st.historyFiles key history2,
    snapshotFiles := snapshotFiles }

/-- `fileStorage.getLatestSnapshot`: read the `latest` file.  The store is
returned unchanged to make explicit that the operation writes nothing. -/
def fileGetLatestSnapshot (leagueId seasonId : Int) (st : FileStore) :
    Option LeagueSnapshot × FileStore :=
  (assocGet st.latestFiles (leagueId, seasonId), st)

/-- `fileStorage.getPreviousSnapshot`: `null` when the history has fewer
than two entries, otherwise the snapshot file at `history[1]`.  The store is
returned unchanged to make explicit that the operation writes nothing. -/
def fileGetPreviousSnapshot (leagueId seasonId : Int) (st : FileStore) :
    Option LeagueSnapshot × FileStore :=
  let history := (assocGet st.historyFiles (leagueId, seasonId)).getD []
  if history.length < 2 then (none, st)
  else
    match history with
    | _ :: t1 :: _ => (assocGet st.snapshotFiles (leagueId, seasonId, t1), st)
    | _ => (none, st)

-- ============ Diff calculation (src/lib/dataTransform.ts 375-447) ============

/-- Body of the status-change loop of `calculateSnapshotDiff` for one
`statusIndex` entry of the current snapshot. -/
def statusChangeFor (previous current : LeagueSnapshot)
    (entry : Int × StatusEntry) : Option StatusChange :=
  let playerId := entry.1
  let currentStatus := entry.2
  match assocGet previous.statusIndex playerId with
  | none => none
  | some previousStatus =>
    if previousStatus.status ≠ currentStatus.status then
      let myTeam := current.teams.find? (fun t => t.id = current.myTeamId)
      let playerEntry :=
        (myTeam.bind Team.roster).bind
          (List.find? (fun r => r.playerId = playerId))
      some {
        playerId := playerId,
        playerName :=
          match playerEntry with
          | some e => e.player.name
          | none => "Player " ++ toString playerId,
        previousStatus := previousStatus.status,
        currentStatus := currentStatus.status,
        isMyPlayer := playerEntry.isSome,
        injuryNote := currentStatus.injuryNote,
        timestamp := current.fetchedAt }
    else none

/-- `calculateSnapshotDiff` from `src/lib/dataTransform.ts`: status changes
for players present in both status indexes with a different status, the
waiver-list symmetric difference, and the significance flags. -/
def calculateSnapshotDiff (previous : Option LeagueSnapshot)
    (current : LeagueSnapshot) : SnapshotDiff :=
  let statusChanges : List StatusChange :=
    match previous with
    | none => []
    | some p => current.statusIndex.filterMap (statusChangeFor p current)
  let newTopWaiverCandidates : List FreeAgentEntry :=
    match previous with
    | none => []
    | some p =>
      let previousPlayerIds := p.freeAgentsTopN.map (fun fa => fa.player.id)
      current.freeAgentsTopN.filter
        (fun fa => !(previousPlayerIds.contains fa.player.id))
  let removedTopWaiverCandidates : List FreeAgentEntry :=
    match previous with
    | none => []
    | some p =>
      let currentPlayerIds := current.freeAgentsTopN.map (fun fa => fa.player.id)
      p.freeAgentsTopN.filter
        (fun fa => !(currentPlayerIds.contains fa.player.id))
  let myStatusChanges := statusChanges.filter (fun sc => sc.isMyPlayer)
  let significantWaiverChanges : Bool := decide (3 ≤ newTopWaiverCandidates.length)
  let weekChanged : Bool :=
    match previous with
    | some p => decide (p.week ≠ current.week)
    | none => false
  let significantChanges : Bool :=
    decide (0 < myStatusChanges.length) || significantWaiverChanges || weekChanged
  { statusChanges := statusChanges,
    newTopWaiverCandidates := newTopWaiverCandidates,
    removedTopWaiverCandidates := removedTopWaiverCandidates,
    weekChanged := weekChanged,
    significantChanges := significantChanges }

-- ============ Smart alerts (src/lib/smartAlerts.ts) ============
-- Emoji prefixes of titles and warning strings are dropped from the
-- embedded message strings; all other text is kept.

/-- `OUT_STATUSES` from `src/lib/smartAlerts.ts`. -/
def OUT_STATUSES : List PlayerStatus := [.OUT, .INJURY_RESERVE, .SUSPENSION]

/-- `STAR_THRESHOLD` from `src/lib/smartAlerts.ts`. -/
def STAR_THRESHOLD : ℚ := 25

/-- `DROPPED_PLAYER_THRESHOLD` from `src/lib/smartAlerts.ts`. -/
def DROPPED_PLAYER_THRESHOLD : ℚ := 35

/-- `STREAMER_THRESHOLD` from `src/lib/smartAlerts.ts`. -/
def STREAMER_THRESHOLD : ℚ := 30

/-- The comma-space separator used by `Array.prototype.join(', ')`. -/
def commaSep : String := ", "

/-- The newline separator used by `warnings.join('\n')`. -/
def newlineStr : String := "\n"

/-- JavaScript `a || b` on an optional string `a` (both `undefined` and the
empty string are falsy). -/
def jsOrStr (a : Option String) (b : String) : String :=
  match a with
  | some s => if s = emptyStr then b else s
  | none => b

/-- JavaScript `a || b` where both sides are optional strings. -/
def jsOrOpt (a b : Option String) : Option String :=
  match a with
  | some s => if s = emptyStr then b else some s
  | none => b

/-- JavaScript `q.toFixed(1)`, modelled with round-half-up to one decimal. -/
def qToFixed1 (q : ℚ) : String :=
  let m : Int := ⌊q * 10 + 1 / 2⌋
  toString (m / 10) ++ "." ++ toString (m % 10)

/-- `isHighUsageStar` from `src/lib/smartAlerts.ts`. -/
def isHighUsageStar (player : Player) : Bool :=
  let projectedAvg := ((player.stats.bind PlayerSeasonStats.projectedAvg).getD 0)
  decide (STAR_THRESHOLD ≤ projectedAvg)

/-- `justWentOut` from `src/lib/smartAlerts.ts`. -/
def justWentOut (change : StatusChange) : Bool :=
  !(OUT_STATUSES.contains change.previousStatus)
    && OUT_STATUSES.contains change.currentStatus

/-- `justReturned` from `src/lib/smartAlerts.ts`. -/
def justReturned (change : StatusChange) : Bool :=
  OUT_STATUSES.contains change.previousStatus
    && decide (change.currentStatus = PlayerStatus.ACTIVE)

/-- `findPlayerById` from `src/lib/smartAlerts.ts`: search the team rosters
in order, then the free-agent list. -/
def findPlayerById (playerId : Int) (snapshot : LeagueSnapshot) : Option Player :=
  match snapshot.teams.findSome?
      (fun t => (t.roster.getD []).find? (fun r => r.playerId = playerId)) with
  | some entry => some entry.player
  | none =>
    (snapshot.freeAgentsTopN.find? (fun f => f.player.id = playerId)).map
      FreeAgentEntry.player

/-- `isStreamer` from `src/lib/smartAlerts.ts`. -/
def isStreamer (player : Player) : Bool :=
  let projectedAvg := ((player.stats.bind PlayerSeasonStats.projectedAvg).getD 0)
  decide (projectedAvg < STREAMER_THRESHOLD ∧ 0 < projectedAvg)

/-- `getNextNDays` from `src/lib/smartAlerts.ts`: the next `n` day numbers
starting from the clock's current day. -/
def getNextNDays (today : Int) (n : Nat) : List Int :=
  (List.range n).map (fun i => today + i)

/-- `generateScheduleAlerts` from `src/lib/smartAlerts.ts`: one MEDIUM
`WEEKLY_SUMMARY` alert collecting dead-zone / light-week warnings for the
streamers on my roster, or no alert at all. -/
def generateScheduleAlerts (snapshot : LeagueSnapshot) (myRoster : List Player)
    (clock : Clock) : List SmartAlert :=
  let now := clock.nowMs
  let next3Days := getNextNDays clock.today 3
  let next7Days := getNextNDays clock.today 7
  let streamers := myRoster.filter (fun p => isStreamer p)
  if streamers.length = 0 then []
  else
    let streamerGames : List (Player × Nat) :=
      streamers.filterMap (fun player =>
        match assocGet snapshot.scheduleIndex player.nbaTeamId with
        | none => none
        | some schedule =>
          some (player,
            (next7Days.filter
              (fun day => (assocGet schedule.gamesByDay day).getD false)).length))
    let avgGames : ℚ :=
      (streamerGames.foldl (fun sum s => sum + (s.2 : ℚ)) 0) /
        (streamerGames.length : ℚ)
    let warnings : List String :=
      streamerGames.filterMap (fun pg =>
        let player := pg.1
        let games := pg.2
        match assocGet snapshot.scheduleIndex player.nbaTeamId with
        | none => none
        | some schedule =>
          let hasGameNext3 :=
            next3Days.any (fun day => (assocGet schedule.gamesByDay day).getD false)
          if !hasGameNext3 then
            some (player.name ++ " - no games next 3 days")
          else if (games : ℚ) ≤ avgGames - 2 ∧ games ≤ 2 then
            some (player.name ++ " - only " ++ toString games ++ " games this week")
          else none)
    if warnings.length = 0 then []
    else
      [{ type := .WEEKLY_SUMMARY, priority := .MEDIUM, title := emptyStr,
         playerName := some emptyStr, teamAbbrev := some emptyStr,
         details := String.intercalate newlineStr warnings, timestamp := now }]

/-- The `playersWeCareAbout` map of `generateSmartAlerts`: NBA team id to
the roster players of my team followed by the watchlist players found in
the snapshot (deduplicated by player id). -/
def buildCareMap (myTeam : Option Team) (watchlist : Option Watchlist)
    (snapshot : LeagueSnapshot) : List (Int × List Player) :=
  let m0 : List (Int × List Player) :=
    match myTeam.bind Team.roster with
    | none => []
    | some roster =>
      roster.foldl (fun m entry =>
        assocSet m entry.player.nbaTeamId
          (((assocGet m entry.player.nbaTeamId).getD []) ++ [entry.player])) []
  match watchlist with
  | none => m0
  | some w =>
    w.playerIds.foldl (fun m playerId =>
      match findPlayerById playerId snapshot with
      | none => m
      | some player =>
        let cur := (assocGet m player.nbaTeamId).getD []
        if cur.any (fun p => p.id = player.id) then m
        else assocSet m player.nbaTeamId (cur ++ [player])) m0

/-- The body of the status-change loop of `generateSmartAlerts` for one
`StatusChange` (`continue` becomes returning the produced alerts). -/
def statusChangeAlertsFor (snapshot : LeagueSnapshot)
    (myRosterPlayerIds watchlistPlayerIds : List Int)
    (care : List (Int × List Player)) (now : Int) (change : StatusChange) :
    List SmartAlert :=
  match findPlayerById change.playerId snapshot with
  | none => []
  | some changedPlayer =>
    let isMyPlayer := myRosterPlayerIds.contains change.playerId
    let wentOut := justWentOut change
    let returned := justReturned change
    if isMyPlayer && wentOut then
      [{ type := .ROSTER_INJURY, priority := .HIGH,
         title := change.playerName ++ " is OUT",
         playerName := some change.playerName,
         teamAbbrev := changedPlayer.nbaTeamAbbrev,
         details := jsOrStr change.injuryNote
           ("Status: " ++ change.currentStatus.asString),
         action := some ("Find a replacement on waivers"),
         timestamp := now }]
    else if isMyPlayer && returned then
      [{ type := .ROSTER_RETURN, priority := .MEDIUM,
         title := change.playerName ++ " is BACK",
         playerName := some change.playerName,
         teamAbbrev := changedPlayer.nbaTeamAbbrev,
         details := "Returned from injury",
         action := some ("Move to starting lineup"),
         timestamp := now }]
    else if !(isHighUsageStar changedPlayer) then []
    else
      let affectedPlayers := (assocGet care changedPlayer.nbaTeamId).getD []
      let beneficiaries := affectedPlayers.filter (fun p => p.id ≠ changedPlayer.id)
      if beneficiaries.length = 0 then []
      else
        let rosterBeneficiaries :=
          beneficiaries.filter (fun p => myRosterPlayerIds.contains p.id)
        let watchlistBeneficiaries :=
          beneficiaries.filter (fun p => watchlistPlayerIds.contains p.id)
        (if wentOut then
          (if 0 < rosterBeneficiaries.length then
            let names := String.intercalate commaSep (rosterBeneficiaries.map Player.name)
            [{ type := .TEAMMATE_INJURY, priority := .HIGH,
               title := changedPlayer.name ++ " is OUT",
               playerName := some changedPlayer.name,
               teamAbbrev := changedPlayer.nbaTeamAbbrev,
               details := "Your " ++ names ++ " should see MORE usage/shots",
               action := some ("Start them if on bench"),
               relatedPlayers := some (rosterBeneficiaries.map Player.name),
               timestamp := now }]
          else []) ++
          (if 0 < watchlistBeneficiaries.length then
            let names := String.intercalate commaSep (watchlistBeneficiaries.map Player.name)
            [{ type := .WATCHLIST_OPPORTUNITY, priority := .HIGH,
               title := "Add " ++ names ++ " - " ++ changedPlayer.name ++ " is OUT",
               playerName := some changedPlayer.name,
               teamAbbrev := changedPlayer.nbaTeamAbbrev,
               details := changedPlayer.name ++ " injury = more usage for " ++ names,
               action := some ("Pick up " ++
                 ((watchlistBeneficiaries.head?.map Player.name).getD emptyStr) ++ " now"),
               relatedPlayers := some (watchlistBeneficiaries.map Player.name),
               timestamp := now }]
          else [])
        else []) ++
        (if returned then
          (if 0 < rosterBeneficiaries.length then
            let names := String.intercalate commaSep (rosterBeneficiaries.map Player.name)
            [{ type := .TEAMMATE_INJURY, priority := .MEDIUM,
               title := changedPlayer.name ++ " is BACK",
               playerName := some changedPlayer.name,
               teamAbbrev := changedPlayer.nbaTeamAbbrev,
               details := "Your " ++ names ++ " may see LESS usage now",
               action := some ("Monitor their production"),
               relatedPlayers := some (rosterBeneficiaries.map Player.name),
               timestamp := now }]
          else []) ++
          (if 0 < watchlistBeneficiaries.length then
            let names := String.intercalate commaSep (watchlistBeneficiaries.map Player.name)
            [{ type := .WATCHLIST_OPPORTUNITY, priority := .LOW,
               title := changedPlayer.name ++ " is BACK",
               playerName := some changedPlayer.name,
               teamAbbrev := changedPlayer.nbaTeamAbbrev,
               details := names ++ " value decreased - " ++ changedPlayer.name ++ " returns",
               action := some ("Maybe remove from watchlist"),
               relatedPlayers := some (watchlistBeneficiaries.map Player.name),
               timestamp := now }]
          else [])
        else [])

/-- The body of the league-activity loop of `generateSmartAlerts` for one
transaction. -/
def txAlertsFor (snapshot : LeagueSnapshot) (watchlistPlayerIds : List Int)
    (now : Int) (tx : LeagueTransaction) : List SmartAlert :=
  if tx.teamId = snapshot.myTeamId then []
  else
    let player := findPlayerById tx.playerId snapshot
    let playerName :=
      jsOrStr tx.playerName
        (jsOrStr (player.map Player.name) ("Player #" ++ toString tx.playerId))
    let teamNameById := snapshot.teams.map (fun t => (t.id, t.name))
    let teamName :=
      jsOrStr (assocGet teamNameById tx.teamId) ("Team #" ++ toString tx.teamId)
    let seasonAvg : ℚ :=
      ((tx.playerSeasonAvg.orElse
        (fun _ => (player.bind Player.stats).bind PlayerSeasonStats.seasonAvg)).getD 0)
    let teamAbbrev : Option String :=
      jsOrOpt tx.playerTeamAbbrev (player.bind Player.nbaTeamAbbrev)
    let avgStr : String :=
      if 0 < seasonAvg then " (" ++ qToFixed1 seasonAvg ++ ")" else emptyStr
    (if tx.type = TxType.DROP then
      let isWatchlistDrop := watchlistPlayerIds.contains tx.playerId
      let isEliteDrop : Bool := decide (DROPPED_PLAYER_THRESHOLD ≤ seasonAvg)
      if isWatchlistDrop || isEliteDrop then
        [{ type := .HOT_WAIVER_ADD, priority := .HIGH,
           title := playerName ++ avgStr ++ " dropped by " ++ teamName,
           playerName := some playerName, teamAbbrev := teamAbbrev,
           details := emptyStr, timestamp := now }]
      else []
    else []) ++
    (if tx.type = TxType.ADD then
      if watchlistPlayerIds.contains tx.playerId then
        [{ type := .WATCHLIST_OPPORTUNITY, priority := .HIGH,
           title := playerName ++ avgStr ++ " SNIPED by " ++ teamName,
           playerName := some playerName, teamAbbrev := teamAbbrev,
           details := "Was on your watchlist - no longer available",
           action := some ("Remove from watchlist"),
           timestamp := now }]
      else []
    else [])

/-- `generateSmartAlerts` from `src/lib/smartAlerts.ts`: status-change
alerts, current-roster injury alerts, schedule alerts and league-activity
alerts, in the order the source pushes them. -/
def generateSmartAlerts (snapshot : LeagueSnapshot) (diff : SnapshotDiff)
    (watchlist : Option Watchlist)
    (recentTransactions : Option (List LeagueTransaction)) (clock : Clock) :
    List SmartAlert :=
  let now := clock.nowMs
  let myTeam := snapshot.teams.find? (fun t => t.id = snapshot.myTeamId)
  let myRosterPlayerIds :=
    ((myTeam.bind Team.roster).getD []).map RosterEntry.playerId
  let watchlistPlayerIds := (watchlist.map Watchlist.playerIds).getD []
  let care := buildCareMap myTeam watchlist snapshot
  let changeAlerts :=
    diff.statusChanges.flatMap
      (statusChangeAlertsFor snapshot myRosterPlayerIds watchlistPlayerIds care now)
  let myRosterPlayers := ((myTeam.bind Team.roster).getD []).map RosterEntry.player
  let currentInjuryAlerts :=
    myRosterPlayers.filterMap (fun player =>
      if OUT_STATUSES.contains player.status then
        some { type := .ROSTER_INJURY, priority := .HIGH,
               title := player.name ++ " is " ++ player.status.asString,
               playerName := some player.name,
               teamAbbrev := player.nbaTeamAbbrev,
               details := jsOrStr player.injuryNote
                 ("Status: " ++ player.status.asString),
               timestamp := now }
      else if player.status = PlayerStatus.DAY_TO_DAY ∨
          player.status = PlayerStatus.QUESTIONABLE ∨
          player.status = PlayerStatus.DOUBTFUL then
        some { type := .ROSTER_INJURY, priority := .MEDIUM,
               title := player.name ++ " is " ++ player.status.asString,
               playerName := some player.name,
               teamAbbrev := player.nbaTeamAbbrev,
               details := jsOrStr player.injuryNote
                 ("Status: " ++ player.status.asString),
               timestamp := now }
      else none)
  let scheduleAlerts := generateScheduleAlerts snapshot myRosterPlayers clock
  let txAlerts :=
    match recentTransactions with
    | none => []
    | some txs =>
      if 0 < txs.length then txs.flatMap (txAlertsFor snapshot watchlistPlayerIds now)
      else []
  changeAlerts ++ currentInjuryAlerts ++ scheduleAlerts ++ txAlerts

/-- `hasActionableAlerts` from `src/lib/smartAlerts.ts`. -/
def hasActionableAlerts (alerts : List SmartAlert) : Bool :=
  alerts.any (fun a =>
    decide (a.priority = Priority.HIGH ∨ a.priority = Priority.MEDIUM))

/-- The alert-gating step of `GET /api/refresh`
(`src/app/api/refresh/route.ts` lines 128-137): `sendSmartAlerts` is
invoked exactly when `hasActionableAlerts` holds of the generated alerts. -/
def refreshAttemptsSend (snapshot : LeagueSnapshot) (diff : SnapshotDiff)
    (watchlist : Option Watchlist)
    (recentTransactions : Option (List LeagueTransaction)) (clock : Clock) : Bool :=
  hasActionableAlerts
    (generateSmartAlerts snapshot diff watchlist recentTransactions clock)

-- ============ Injury tracker (src/lib/injuryTracker.ts) ============

/-- The `'HIGH' | 'MEDIUM' | 'LOW'` union used for injury risk levels and
recommendation confidence. -/
inductive Tier where
  | HIGH
  | MEDIUM
  | LOW
deriving DecidableEq

/-- `InjuryEvent` from `src/types/index.ts`. -/
structure InjuryEvent where
  startDate : Int
  endDate : Option Int := none
  status : PlayerStatus
  note : Option String := none
  gamesMissed : ℚ := 0
deriving DecidableEq

/-- `PlayerInjuryHistory` from `src/types/index.ts`. -/
structure PlayerInjuryHistory where
  playerId : Int
  playerName : String := ""
  nbaTeamId : Int := 0
  totalGamesMissed : ℚ := 0
  totalGamesTracked : ℚ := 0
  injuryEvents : List InjuryEvent := []
  currentlyInjured : Bool := false
  lastUpdated : Int := 0
deriving DecidableEq

/-- `InjuryHistoryIndex` from `src/types/index.ts` (record keyed by player
id). -/
def InjuryHistoryIndex : Type := List (Int × PlayerInjuryHistory)

/-- `InjuryRiskAssessment` from `src/types/index.ts`. -/
structure InjuryRiskAssessment where
  playerId : Int
  riskLevel : Tier
  gamesMissedPct : ℚ
  injuryCount : Nat
  isCurrentlyInjured : Bool
  scorePenalty : ℚ
deriving DecidableEq

/-- JavaScript `q.toFixed(0)`, modelled with round-half-up. -/
def qToFixed0 (q : ℚ) : String :=
  toString (⌊q + 1 / 2⌋ : Int)

/-- `getInjuryRiskAssessment` from `src/lib/injuryTracker.ts`. -/
def getInjuryRiskAssessment (playerId : Int) (history : Option InjuryHistoryIndex) :
    InjuryRiskAssessment :=
  let defaultAssessment : InjuryRiskAssessment :=
    { playerId := playerId, riskLevel := .LOW, gamesMissedPct := 0,
      injuryCount := 0, isCurrentlyInjured := false, scorePenalty := 1 }
  match history with
  | none => defaultAssessment
  | some h =>
    match assocGet h playerId with
    | none => defaultAssessment
    | some playerHistory =>
      let gamesMissedPct : ℚ :=
        if 0 < playerHistory.totalGamesTracked then
          (playerHistory.totalGamesMissed / playerHistory.totalGamesTracked) * 100
        else 0
      let injuryCount := playerHistory.injuryEvents.length
      let isCurrentlyInjured := playerHistory.currentlyInjured
      let levelAndPenalty : Tier × ℚ :=
        if 30 ≤ gamesMissedPct ∨ 4 ≤ injuryCount then (.HIGH, 0.6)
        else if 15 ≤ gamesMissedPct ∨ 2 ≤ injuryCount then (.MEDIUM, 0.8)
        else (.LOW, 1)
      let scorePenalty :=
        if isCurrentlyInjured then levelAndPenalty.2 * 0.5 else levelAndPenalty.2
      { playerId := playerId, riskLevel := levelAndPenalty.1,
        gamesMissedPct := gamesMissedPct, injuryCount := injuryCount,
        isCurrentlyInjured := isCurrentlyInjured, scorePenalty := scorePenalty }

/-- The bullet separator used by `parts.join(' • ')`. -/
def bulletSep : String := " • "

/-- `formatInjuryRisk` from `src/lib/injuryTracker.ts`. -/
def formatInjuryRisk (assessment : InjuryRiskAssessment) : String :=
  if assessment.riskLevel = Tier.LOW ∧ ¬ assessment.isCurrentlyInjured then emptyStr
  else
    let parts : List String :=
      (if assessment.isCurrentlyInjured then ["Currently injured"] else []) ++
      (if 10 ≤ assessment.gamesMissedPct then
        [qToFixed0 assessment.gamesMissedPct ++ "% games missed"]
      else []) ++
      (if 2 ≤ assessment.injuryCount then
        [toString assessment.injuryCount ++ " injuries this season"]
      else [])
    String.intercalate bulletSep parts

-- ============ Optimizer (src/lib/optimizer.ts) ============

/-- `WAIVER_WEIGHTS` from `src/lib/optimizer.ts`. -/
def WAIVER_WEIGHTS_projectedPoints : ℚ := 0.40

/-- `WAIVER_WEIGHTS.gamesNext7` from `src/lib/optimizer.ts`. -/
def WAIVER_WEIGHTS_gamesNext7 : ℚ := 0.45

/-- `WAIVER_WEIGHTS.recentTrend` from `src/lib/optimizer.ts`. -/
def WAIVER_WEIGHTS_recentTrend : ℚ := 0.15

/-- `INJURED_STATUSES` from `src/lib/optimizer.ts`. -/
def INJURED_STATUSES : List PlayerStatus := [.OUT, .INJURY_RESERVE, .SUSPENSION]

/-- JavaScript `a || b` on optional numbers (`0` is falsy). -/
def jsOrQ (a : Option ℚ) (b : ℚ) : ℚ :=
  match a with
  | some v => if v = 0 then b else v
  | none => b

/-- JavaScript `a || b` on optional counts (`0` is falsy). -/
def jsOrNat (a : Option Nat) (b : Nat) : Nat :=
  match a with
  | some v => if v = 0 then b else v
  | none => b

/-- `isPlayerInjured` from `src/lib/optimizer.ts`. -/
def isPlayerInjured (player : Player) : Bool :=
  INJURED_STATUSES.contains player.status

/-- The `details` record returned by `scoreWaiverCandidate`. -/
structure WaiverScoreDetails where
  projected : ℚ
  games : Nat
  trend : ℚ
deriving DecidableEq

/-- `scoreWaiverCandidate` from `src/lib/optimizer.ts`. -/
def scoreWaiverCandidate (player : Player) (schedule : Option NBATeamSchedule) :
    ℚ × WaiverScoreDetails :=
  let gamesNext7 := jsOrNat (schedule.map NBATeamSchedule.gamesNext7Days) 3
  let projectedAvg := jsOrQ (player.stats.bind PlayerSeasonStats.projectedAvg) 15
  let seasonAvg := jsOrQ (player.stats.bind PlayerSeasonStats.seasonAvg) projectedAvg
  let projectedPointsNext7 := projectedAvg * (gamesNext7 : ℚ)
  let recentTrend : ℚ :=
    if 0 < seasonAvg then ((projectedAvg - seasonAvg) / seasonAvg) * 100 else 0
  let normalizedProjected := projectedPointsNext7
  let normalizedGames : ℚ := (gamesNext7 : ℚ) * 10
  let normalizedTrend : ℚ := max (-20) (min 20 recentTrend)
  let score :=
    WAIVER_WEIGHTS_projectedPoints * normalizedProjected +
    WAIVER_WEIGHTS_gamesNext7 * normalizedGames +
    WAIVER_WEIGHTS_recentTrend * normalizedTrend
  (score, { projected := projectedPointsNext7, games := gamesNext7, trend := recentTrend })

/-- Replace the first underscore of a string by a space, as JavaScript
`s.replace('_', ' ')` does. -/
def replaceFirstUnderscoreAux : List Char → List Char
  | [] => []
  | c :: cs => if c = '_' then ' ' :: cs else c :: replaceFirstUnderscoreAux cs

/-- String wrapper of `replaceFirstUnderscoreAux`. -/
def replaceFirstUnderscore (s : String) : String :=
  String.mk (replaceFirstUnderscoreAux s.toList)

/-- `generateWaiverReasons` from `src/lib/optimizer.ts` (emoji dropped). -/
def generateWaiverReasons (player : Player) (games : Nat) (trend : ℚ)
    (_schedule : Option NBATeamSchedule) : List String :=
  (if 4 ≤ games then [toString games ++ " games in next 7 days"]
   else if games = 3 then ["Average schedule (3 games)"]
   else []) ++
  (if 15 < trend then ["Hot streak (+" ++ qToFixed0 trend ++ "% vs avg)"]
   else if 5 < trend then ["Trending up"]
   else if trend < -10 then ["Trending down"]
   else []) ++
  (match player.ownership with
   | none => []
   | some ownership =>
     (if 70 < ownership.percentOwned then
       ["Widely rostered (" ++ qToFixed0 ownership.percentOwned ++ "%)"]
     else []) ++
     (if 10 < ownership.percentChange then
       ["Rising fast (+" ++ qToFixed0 ownership.percentChange ++ "%)"]
     else [])) ++
  (if 2 < player.positions.length then ["Multi-position eligible"] else [])

/-- `WaiverRecommendation` from `src/types/index.ts`. -/
structure WaiverRecommendation where
  rank : Nat
  player : Player
  score : ℚ
  projectedPointsNext7 : ℚ
  gamesNext7 : Nat
  recentTrend : ℚ
  reasons : List String
  confidence : Tier
deriving DecidableEq

/-- Body of the free-agent loop of `getWaiverRecommendations` for one entry
(`continue` for injured players becomes `none`). -/
def waiverRecFor (snapshot : LeagueSnapshot)
    (injuryHistory : Option InjuryHistoryIndex) (fa : FreeAgentEntry) :
    Option WaiverRecommendation :=
  if isPlayerInjured fa.player then none
  else
    let schedule := assocGet snapshot.scheduleIndex fa.player.nbaTeamId
    let scored := scoreWaiverCandidate fa.player schedule
    let baseScore := scored.1
    let details := scored.2
    let reasons0 := generateWaiverReasons fa.player details.games details.trend schedule
    let scoreAndReasons : ℚ × List String :=
      match injuryHistory with
      | none => (baseScore, reasons0)
      | some ih =>
        let injuryRisk := getInjuryRiskAssessment fa.player.id (some ih)
        let score := baseScore * injuryRisk.scorePenalty
        let reasons1 :=
          if injuryRisk.riskLevel ≠ Tier.LOW then
            let riskNote := formatInjuryRisk injuryRisk
            (if riskNote ≠ emptyStr then reasons0 ++ [riskNote] else reasons0) ++
            (if injuryRisk.riskLevel = Tier.HIGH then
              ["Injury-prone (" ++ qToFixed0 injuryRisk.gamesMissedPct ++
                "% games missed)"]
            else [])
          else reasons0
        (score, reasons1)
    let reasons2 :=
      if fa.player.status = PlayerStatus.DAY_TO_DAY ∨
          fa.player.status = PlayerStatus.QUESTIONABLE then
        (replaceFirstUnderscore fa.player.status.asString) :: scoreAndReasons.2
      else scoreAndReasons.2
    let injuryRisk2 : Option InjuryRiskAssessment :=
      match injuryHistory with
      | some ih => some (getInjuryRiskAssessment fa.player.id (some ih))
      | none => none
    let confidence : Tier :=
      if fa.player.status = PlayerStatus.DAY_TO_DAY ∨
          fa.player.status = PlayerStatus.QUESTIONABLE then Tier.LOW
      else if injuryRisk2.map InjuryRiskAssessment.riskLevel = some Tier.HIGH then
        Tier.LOW
      else if injuryRisk2.map InjuryRiskAssessment.riskLevel = some Tier.MEDIUM then
        Tier.MEDIUM
      else if 4 ≤ details.games ∧ 5 < details.trend then Tier.HIGH
      else if details.games ≤ 2 ∨ details.trend < -10 then Tier.LOW
      else Tier.MEDIUM
    some { rank := 0, player := fa.player, score := scoreAndReasons.1,
           projectedPointsNext7 := details.projected,
           gamesNext7 := details.games, recentTrend := details.trend,
           reasons := reasons2, confidence := confidence }

/-- The `forEach` that sets `rec.rank = idx + 1` after sorting. -/
def assignRanks : Nat → List WaiverRecommendation → List WaiverRecommendation
  | _, [] => []
  | i, r :: rs => { r with rank := i + 1 } :: assignRanks (i + 1) rs

/-- `getWaiverRecommendations` from `src/lib/optimizer.ts`: skip injured
free agents, score the rest, sort by score descending (stable, as
`Array.prototype.sort`), assign ranks 1, 2, ... and keep the first
`limit`. -/
def getWaiverRecommendations (snapshot : LeagueSnapshot) (limit : Nat)
    (injuryHistory : Option InjuryHistoryIndex) : List WaiverRecommendation :=
  let recommendations :=
    snapshot.freeAgentsTopN.filterMap (waiverRecFor snapshot injuryHistory)
  let sorted := jsSortBy (fun a b => decide (b.score ≤ a.score)) recommendations
  (assignRanks 0 sorted).take limit

-- ============ Weekly streaming plan (src/lib/optimizer.ts) ============

/-- `StreamingSlot` from `src/types/index.ts` (dates as day numbers). -/
structure StreamingSlot where
  date : Int
  dayOfWeek : String
  recommendedAdd : Option Player := none
  recommendedDrop : Option Player := none
  reason : String
  gamesGained : Nat
deriving DecidableEq

/-- `WeeklyStreamingPlan` from `src/types/index.ts`. -/
structure WeeklyStreamingPlan where
  week : Int
  weekStartDate : Int
  weekEndDate : Int
  totalGamesWithStreaming : Nat
  totalGamesWithoutStreaming : Nat
  gamesGained : Nat
  addsRemaining : Nat
  addsUsed : Nat
  plan : List StreamingSlot
deriving DecidableEq

/-- `getStreamingCandidates` from `src/lib/optimizer.ts`: bench players
(lineup slot 12). -/
def getStreamingCandidates (team : Team) : List RosterEntry :=
  match team.roster with
  | none => []
  | some roster => roster.filter (fun entry => entry.lineupSlotId = 12)

/-- `findStreamingAdd` from `src/lib/optimizer.ts`: best unused healthy
free agent with a game on the given day. -/
def findStreamingAdd (date : Int) (availablePlayers : List FreeAgentEntry)
    (scheduleIndex : List (Int × NBATeamSchedule)) (usedPlayers : List Int) :
    Option FreeAgentEntry :=
  let candidates := availablePlayers.filter (fun fa =>
    if usedPlayers.contains fa.player.id then false
    else if isPlayerInjured fa.player then false
    else
      match assocGet scheduleIndex fa.player.nbaTeamId with
      | some schedule => (assocGet schedule.gamesByDay date).getD false
      | none => false)
  (jsSortBy (fun a b => decide (b.score ≤ a.score)) candidates).head?

/-- Short weekday names aligned so that day number 0 (the Unix epoch,
a Thursday) maps to "Thu"; models `toLocaleDateString('en-US',
weekday short)`. -/
def dayNames : List String := ["Thu", "Fri", "Sat", "Sun", "Mon", "Tue", "Wed"]

/-- Weekday name of a day number. -/
def dayOfWeekName (d : Int) : String :=
  (dayNames.get? (d % 7).toNat).getD emptyStr

/-- The string JavaScript renders for `undefined` inside a template
literal. -/
def undefinedStr : String := "undefined"

/-- Mutable state of the day loop of `generateWeeklyStreamingPlan`. -/
structure StreamState where
  used : List Int
  addsUsed : Nat
  gamesGained : Nat
  plan : List StreamingSlot
deriving DecidableEq

/-- One iteration of the day loop of `generateWeeklyStreamingPlan`. -/
def streamDay (snapshot : LeagueSnapshot) (streamingCandidates : List RosterEntry)
    (addsPerWeek : Nat) (st : StreamState) (date : Int) : StreamState :=
  let dayOfWeek := dayOfWeekName date
  if addsPerWeek ≤ st.addsUsed then
    { st with plan := st.plan ++
        [{ date := date, dayOfWeek := dayOfWeek,
           reason := "No adds remaining", gamesGained := 0 }] }
  else
    match findStreamingAdd date snapshot.freeAgentsTopN snapshot.scheduleIndex
        st.used with
    | none =>
      { st with plan := st.plan ++
          [{ date := date, dayOfWeek := dayOfWeek,
             reason := "No advantageous streaming options", gamesGained := 0 }] }
    | some bestAdd =>
      match streamingCandidates.find?
          (fun entry => !(st.used.contains entry.playerId)) with
      | none =>
        { st with plan := st.plan ++
            [{ date := date, dayOfWeek := dayOfWeek,
               reason := "No drop candidates available", gamesGained := 0 }] }
      | some dropCandidate =>
        { used := st.used ++ [bestAdd.player.id, dropCandidate.playerId],
          addsUsed := st.addsUsed + 1,
          gamesGained := st.gamesGained + 1,
          plan := st.plan ++
            [{ date := date, dayOfWeek := dayOfWeek,
               recommendedAdd := some bestAdd.player,
               recommendedDrop := some dropCandidate.player,
               reason := "Add " ++ bestAdd.player.name ++ " (" ++
                 (bestAdd.player.nbaTeamAbbrev.getD undefinedStr) ++ ") for game",
               gamesGained := 1 }] }

/-- `generateWeeklyStreamingPlan` from `src/lib/optimizer.ts`; the `throw`
when my team is missing becomes `none`. -/
def generateWeeklyStreamingPlan (snapshot : LeagueSnapshot) (addsPerWeek : Nat)
    (clock : Clock) : Option WeeklyStreamingPlan :=
  match snapshot.teams.find? (fun t => t.id = snapshot.myTeamId) with
  | none => none
  | some myTeam =>
    let weekDays := (List.range 7).map (fun i => clock.today + i)
    let streamingCandidates := getStreamingCandidates myTeam
    let final := weekDays.foldl (streamDay snapshot streamingCandidates addsPerWeek)
      { used := [], addsUsed := 0, gamesGained := 0, plan := [] }
    let baseGames := (jsOrNat (myTeam.roster.map List.length) 10) * 3
    some { week := snapshot.week,
           weekStartDate := weekDays.head?.getD 0,
           weekEndDate := weekDays.getLast?.getD 0,
           totalGamesWithStreaming := baseGames + final.gamesGained,
           totalGamesWithoutStreaming := baseGames,
           gamesGained := final.gamesGained,
           addsRemaining := addsPerWeek - final.addsUsed,
           addsUsed := final.addsUsed,
           plan := final.plan }

-- ====== ESPN response types (src/types/espn.ts) and transforms ======
-- (src/lib/dataTransform.ts lines 27-369)

/-- One ESPN stat line (`ESPNPlayerStats`); `stats` is the raw stat record
keyed by stat id string. -/
structure ESPNPlayerStats where
  id : String := ""
  appliedTotal : Option ℚ := none
  appliedAverage : Option ℚ := none
  stats : Option (List (String × ℚ)) := none
  statSourceId : Option Int := none
deriving DecidableEq

/-- `ESPNPlayer` from `src/types/espn.ts` (fields the transforms read);
`injuryStatus` is kept as the raw API string. -/
structure ESPNPlayer where
  id : Int
  fullName : String := ""
  firstName : String := ""
  lastName : String := ""
  proTeamId : Int
  eligibleSlots : List Int := []
  injured : Bool := false
  injuryStatus : Option String := none
  ownership : Option Ownership := none
  stats : Option (List ESPNPlayerStats) := none
deriving DecidableEq

/-- `playerPoolEntry` of `ESPNRosterEntry`. -/
structure ESPNPlayerPoolEntry where
  id : Int := 0
  player : ESPNPlayer
  appliedStatTotal : Option ℚ := none
deriving DecidableEq

/-- `ESPNRosterEntry` from `src/types/espn.ts`. -/
structure ESPNRosterEntry where
  playerId : Int
  playerPoolEntry : Option ESPNPlayerPoolEntry := none
  lineupSlotId : Int
  acquisitionDate : Int := 0
deriving DecidableEq

/-- `ESPNTeam` from `src/types/espn.ts` (fields the transforms read);
`roster?.entries` is flattened into one optional list, and the source field
`abbrev` is spelled `abbr` (Lean keyword). -/
structure ESPNTeam where
  id : Int
  abbr : String := ""
  name : String := ""
  nickname : Option String := none
  roster : Option (List ESPNRosterEntry) := none
  watchList : List Int := []
deriving DecidableEq

/-- One side of an `ESPNMatchup`. -/
structure ESPNMatchupSide where
  teamId : Int
  totalPoints : ℚ := 0
  totalPointsLive : Option ℚ := none
deriving DecidableEq

/-- `ESPNMatchup` from `src/types/espn.ts`. -/
structure ESPNMatchup where
  id : Int
  matchupPeriodId : Int
  home : ESPNMatchupSide
  away : Option ESPNMatchupSide := none
deriving DecidableEq

/-- Entry of `ESPNFreeAgentResponse.players`. -/
structure ESPNFreeAgentResponseEntry where
  id : Int := 0
  player : Option ESPNPlayer := none
deriving DecidableEq

/-- `ESPNFreeAgentResponse` from `src/types/espn.ts`. -/
structure ESPNFreeAgentResponse where
  players : List ESPNFreeAgentResponseEntry := []
deriving DecidableEq

/-- `ESPNLeagueSettings` from `src/types/espn.ts` (fields
`buildLeagueSnapshot` reads). -/
structure ESPNLeagueSettings where
  id : Int
  scoringPeriodId : Int
  currentMatchupPeriod : Int
  seasonId : Int
deriving DecidableEq

/-- One game of `proGamesByScoringPeriod`. -/
structure ESPNProGame where
  id : Int
  date : Int
deriving DecidableEq

/-- The pro-team schedule rows `buildScheduleIndex` consumes;
`proGamesByScoringPeriod` is keyed by scoring-period id. -/
structure ESPNProTeamScheduleRow where
  id : Int
  abbr : String := ""
  proGamesByScoringPeriod : Option (List (Int × List ESPNProGame)) := none
deriving DecidableEq

/-- An entry of the `NBA_TEAMS` table of `src/lib/espnClient.ts`. -/
structure NBATeamInfo where
  abbr : String
  name : String
deriving DecidableEq

/-- `NBA_TEAMS` from `src/lib/espnClient.ts`. -/
def NBA_TEAMS : List (Int × NBATeamInfo) :=
  [(1, ⟨"ATL", "Atlanta Hawks"⟩), (2, ⟨"BOS", "Boston Celtics"⟩),
   (3, ⟨"NOP", "New Orleans Pelicans"⟩), (4, ⟨"CHI", "Chicago Bulls"⟩),
   (5, ⟨"CLE", "Cleveland Cavaliers"⟩), (6, ⟨"DAL", "Dallas Mavericks"⟩),
   (7, ⟨"DEN", "Denver Nuggets"⟩), (8, ⟨"DET", "Detroit Pistons"⟩),
   (9, ⟨"GSW", "Golden State Warriors"⟩), (10, ⟨"HOU", "Houston Rockets"⟩),
   (11, ⟨"IND", "Indiana Pacers"⟩), (12, ⟨"LAC", "LA Clippers"⟩),
   (13, ⟨"LAL", "Los Angeles Lakers"⟩), (14, ⟨"MIA", "Miami Heat"⟩),
   (15, ⟨"MIL", "Milwaukee Bucks"⟩), (16, ⟨"MIN", "Minnesota Timberwolves"⟩),
   (17, ⟨"BKN", "Brooklyn Nets"⟩), (18, ⟨"NYK", "New York Knicks"⟩),
   (19, ⟨"ORL", "Orlando Magic"⟩), (20, ⟨"PHI", "Philadelphia 76ers"⟩),
   (21, ⟨"PHX", "Phoenix Suns"⟩), (22, ⟨"POR", "Portland Trail Blazers"⟩),
   (23, ⟨"SAC", "Sacramento Kings"⟩), (24, ⟨"SAS", "San Antonio Spurs"⟩),
   (25, ⟨"OKC", "Oklahoma City Thunder"⟩), (26, ⟨"UTA", "Utah Jazz"⟩),
   (27, ⟨"WAS", "Washington Wizards"⟩), (28, ⟨"TOR", "Toronto Raptors"⟩),
   (29, ⟨"MEM", "Memphis Grizzlies"⟩), (30, ⟨"CHA", "Charlotte Hornets"⟩)]

/-- `POSITION_MAP` from `src/types/espn.ts`. -/
def POSITION_MAP : List (Int × String) :=
  [(0, "PG"), (1, "SG"), (2, "SF"), (3, "PF"), (4, "C"), (5, "G"), (6, "F"),
   (7, "SG/SF"), (8, "G/F"), (9, "PF/C"), (10, "F/C"), (11, "UTIL")]

/-- `LINEUP_SLOT_MAP` from `src/types/espn.ts`. -/
def LINEUP_SLOT_MAP : List (Int × String) :=
  [(0, "PG"), (1, "SG"), (2, "SF"), (3, "PF"), (4, "C"), (5, "G"), (6, "F"),
   (7, "SG/SF"), (8, "G/F"), (9, "PF/C"), (10, "F/C"), (11, "UTIL"),
   (12, "BE"), (13, "IR")]

/-- The `statusMap` of `mapPlayerStatus` in `src/lib/dataTransform.ts`. -/
def statusMap : List (String × PlayerStatus) :=
  [("ACTIVE", .ACTIVE), ("DAY_TO_DAY", .DAY_TO_DAY), ("OUT", .OUT),
   ("INJURY_RESERVE", .INJURY_RESERVE), ("SUSPENSION", .SUSPENSION),
   ("DOUBTFUL", .DOUBTFUL), ("QUESTIONABLE", .QUESTIONABLE),
   ("PROBABLE", .PROBABLE), ("D", .DAY_TO_DAY), ("O", .OUT),
   ("IR", .INJURY_RESERVE), ("SSPD", .SUSPENSION)]

/-- `mapPlayerStatus` from `src/lib/dataTransform.ts`. -/
def mapPlayerStatus (espnPlayer : ESPNPlayer) : PlayerStatus :=
  if espnPlayer.injured = false ∧ espnPlayer.injuryStatus.getD emptyStr = emptyStr then
    PlayerStatus.ACTIVE
  else
    (assocGet statusMap (jsOrStr espnPlayer.injuryStatus ("ACTIVE"))).getD
      PlayerStatus.ACTIVE

/-- `getPositionsFromSlots` from `src/lib/dataTransform.ts`: primary
positions (slots 0-4) deduplicated in insertion order. -/
def getPositionsFromSlots (eligibleSlots : List Int) : List String :=
  eligibleSlots.foldl (fun positions slot =>
    if 0 ≤ slot ∧ slot ≤ 4 then
      match assocGet POSITION_MAP slot with
      | some pos => if positions.contains pos then positions else positions ++ [pos]
      | none => positions
    else positions) []

/-- `extractPlayerStats` from `src/lib/dataTransform.ts`.  The boolean of
the accumulator records whether any assignment to the `stats` object
happened (the source tests `Object.keys(stats).length > 0`). -/
def extractPlayerStats (espnPlayer : ESPNPlayer) : Option PlayerSeasonStats :=
  match espnPlayer.stats with
  | none => none
  | some statList =>
    if statList.length = 0 then none
    else
      let result := statList.foldl (fun (acc : PlayerSeasonStats × Bool) stat =>
        let acc1 :=
          if stat.statSourceId = some 0 ∧ stat.appliedAverage.isSome then
            let withGames := { acc.1 with gamesPlayed := assocGet (stat.stats.getD []) ("40") }
            ({ withGames with seasonAvg := stat.appliedAverage }, true)
          else acc
        let acc2 :=
          if stat.statSourceId = some 1 ∧ stat.appliedAverage.isSome then
            ({ acc1.1 with projectedAvg := stat.appliedAverage }, true)
          else acc1
        if stat.statSourceId = some 1 ∧ stat.appliedTotal.isSome then
          ({ acc2.1 with projectedTotal := stat.appliedTotal }, true)
        else acc2) (({} : PlayerSeasonStats), false)
      if result.2 then some result.1 else none

/-- `transformPlayer` from `src/lib/dataTransform.ts`. -/
def transformPlayer (espnPlayer : ESPNPlayer) : Player :=
  let nbaTeam := assocGet NBA_TEAMS espnPlayer.proTeamId
  { id := espnPlayer.id,
    name := espnPlayer.fullName,
    firstName := espnPlayer.firstName,
    lastName := espnPlayer.lastName,
    nbaTeamId := espnPlayer.proTeamId,
    nbaTeamAbbrev := nbaTeam.map NBATeamInfo.abbr,
    positions := getPositionsFromSlots espnPlayer.eligibleSlots,
    eligibleSlots := espnPlayer.eligibleSlots,
    status := mapPlayerStatus espnPlayer,
    injuryNote := if espnPlayer.injured then espnPlayer.injuryStatus else none,
    ownership := espnPlayer.ownership,
    stats := extractPlayerStats espnPlayer }

/-- `transformRosterEntry` from `src/lib/dataTransform.ts`. -/
def transformRosterEntry (entry : ESPNRosterEntry) : Option RosterEntry :=
  match entry.playerPoolEntry with
  | none => none
  | some ppe =>
    let player := transformPlayer ppe.player
    let slotName := (assocGet LINEUP_SLOT_MAP entry.lineupSlotId).getD ("UNKNOWN")
    some { playerId := entry.playerId, player := player, lineupSlot := slotName,
           lineupSlotId := entry.lineupSlotId,
           acquisitionDate := entry.acquisitionDate,
           appliedTotal := ppe.appliedStatTotal }

/-- `transformTeam` from `src/lib/dataTransform.ts` (the `record` field is
presentation-only and not embedded). -/
def transformTeam (espnTeam : ESPNTeam) (myTeamId : Int) : Team :=
  let roster := espnTeam.roster.map (fun entries =>
    entries.filterMap transformRosterEntry)
  let combinedName :=
    (espnTeam.name ++ " " ++ (espnTeam.nickname.getD emptyStr)).trim
  { id := espnTeam.id,
    abbr := espnTeam.abbr,
    name := if combinedName = emptyStr then espnTeam.abbr else combinedName,
    nickname := espnTeam.nickname,
    isMyTeam := decide (espnTeam.id = myTeamId),
    roster := roster }

/-- `transformMatchup` from `src/lib/dataTransform.ts`. -/
def transformMatchup (espnMatchup : ESPNMatchup) (myTeamId : Int) : Matchup :=
  let isHome : Bool := decide (espnMatchup.home.teamId = myTeamId)
  let isAway : Bool :=
    decide (espnMatchup.away.map ESPNMatchupSide.teamId = some myTeamId)
  { id := espnMatchup.id,
    week := espnMatchup.matchupPeriodId,
    homeTeamId := espnMatchup.home.teamId,
    awayTeamId := espnMatchup.away.map ESPNMatchupSide.teamId,
    homePoints := jsOrQ espnMatchup.home.totalPointsLive espnMatchup.home.totalPoints,
    awayPoints :=
      match espnMatchup.away with
      | none => none
      | some away => some (jsOrQ away.totalPointsLive away.totalPoints),
    isMyMatchup := isHome || isAway }

/-- Body of the free-agent loop of `transformFreeAgents` for one response
entry (`continue` on a missing player becomes `none`). -/
def transformFreeAgentEntry (scheduleIndex : List (Int × NBATeamSchedule))
    (entry : ESPNFreeAgentResponseEntry) : Option FreeAgentEntry :=
  match entry.player with
  | none => none
  | some espnPlayer =>
      let player := transformPlayer espnPlayer
      let schedule := assocGet scheduleIndex player.nbaTeamId
      let pa := (player.stats.bind PlayerSeasonStats.projectedAvg).getD 0
      let sa := (player.stats.bind PlayerSeasonStats.seasonAvg).getD 0
      let gamesNext7 := jsOrNat (schedule.map NBATeamSchedule.gamesNext7Days) 3
      let projectedPointsNext7 : ℚ :=
        if pa = 0 then 0 else pa * (gamesNext7 : ℚ)
      let recentTrend : ℚ :=
        if pa ≠ 0 ∧ sa ≠ 0 then ((pa - sa) / sa) * 100 else 0
      let normalizedProjected := projectedPointsNext7
      let normalizedGames : ℚ := (gamesNext7 : ℚ) * 10
      let normalizedTrend : ℚ := max (-20) (min 20 recentTrend)
      let score : ℚ :=
        0.55 * normalizedProjected + 0.25 * normalizedGames + 0.20 * normalizedTrend
      let reasonCodes : List String :=
        (if 4 ≤ gamesNext7 then ["4+ games next 7 days"] else []) ++
        (if 10 < recentTrend then ["Hot streak"] else []) ++
        (match player.ownership with
         | some o => if 50 < o.percentOwned then ["Widely owned"] else []
         | none => []) ++
        (match player.ownership with
         | some o => if 5 < o.percentChange then ["Rising ownership"] else []
         | none => [])
      some { player := player, score := score,
             projectedPointsNext7 := projectedPointsNext7,
             gamesNext7 := gamesNext7, recentTrend := recentTrend,
             reasonCodes := reasonCodes }

/-- `transformFreeAgents` from `src/lib/dataTransform.ts`: score each free
agent with the 0.55/0.25/0.20 heuristic and sort by score descending. -/
def transformFreeAgents (response : ESPNFreeAgentResponse)
    (scheduleIndex : List (Int × NBATeamSchedule)) : List FreeAgentEntry :=
  let entries := response.players.filterMap (transformFreeAgentEntry scheduleIndex)
  jsSortBy (fun a b => decide (b.score ≤ a.score)) entries

/-- `buildStatusIndex` from `src/lib/dataTransform.ts`. -/
def buildStatusIndex (teams : List Team) : List (Int × StatusEntry) :=
  teams.foldl (fun index team =>
    match team.roster with
    | none => index
    | some roster =>
      roster.foldl (fun index entry =>
        assocSet index entry.player.id
          { status := entry.player.status,
            injuryNote := entry.player.injuryNote }) index) []

/-- `buildScheduleIndex` from `src/lib/dataTransform.ts`: with no schedule
data, defaults of 3 games for every NBA team; otherwise count the scoring
periods with games over the next `daysAhead` days. -/
def buildScheduleIndex (nbaSchedule : List ESPNProTeamScheduleRow)
    (currentScoringPeriod : Int) (daysAhead : Nat) (today : Int) :
    List (Int × NBATeamSchedule) :=
  if nbaSchedule.length = 0 then
    NBA_TEAMS.foldl (fun index kv =>
      assocSet index kv.1
        { teamId := kv.1, teamAbbrev := kv.2.abbr, gamesThisWeek := 3,
          gamesNext7Days := 3, gamesByDay := [] }) []
  else
    nbaSchedule.foldl (fun index team =>
      match team.proGamesByScoringPeriod with
      | none => index
      | some byPeriod =>
        let result := (List.range daysAhead).foldl
          (fun (acc : List (Int × Bool) × Nat) i =>
            let periodId := currentScoringPeriod + (i : Int)
            let dateStr := today + (i : Int)
            match assocGet byPeriod periodId with
            | some gamesOnDay =>
              if 0 < gamesOnDay.length then (assocSet acc.1 dateStr true, acc.2 + 1)
              else (assocSet acc.1 dateStr false, acc.2)
            | none => (assocSet acc.1 dateStr false, acc.2)) ([], 0)
        assocSet index team.id
          { teamId := team.id, teamAbbrev := team.abbr,
            gamesThisWeek := result.2, gamesNext7Days := result.2,
            gamesByDay := result.1 }) []

/-- `SnapshotInput` from `src/lib/dataTransform.ts`. -/
structure SnapshotInput where
  settings : ESPNLeagueSettings
  teams : List ESPNTeam
  matchups : List ESPNMatchup
  freeAgents : ESPNFreeAgentResponse
  myTeamId : Int
  nbaSchedule : Option (List ESPNProTeamScheduleRow) := none
deriving DecidableEq

/-- `buildLeagueSnapshot` from `src/lib/dataTransform.ts`. -/
def buildLeagueSnapshot (input : SnapshotInput) (clock : Clock) : LeagueSnapshot :=
  let scheduleIndex := buildScheduleIndex (input.nbaSchedule.getD [])
    input.settings.scoringPeriodId 7 clock.today
  let teams := input.teams.map (fun t => transformTeam t input.myTeamId)
  let matchups := input.matchups.map (fun m => transformMatchup m input.myTeamId)
  let freeAgentsTopN := (transformFreeAgents input.freeAgents scheduleIndex).take 50
  let statusIndex := buildStatusIndex teams
  { fetchedAt := clock.nowMs,
    leagueId := input.settings.id,
    seasonId := input.settings.seasonId,
    week := input.settings.currentMatchupPeriod,
    scoringPeriodId := input.settings.scoringPeriodId,
    teams := teams,
    myTeamId := input.myTeamId,
    matchups := matchups,
    freeAgentsTopN := freeAgentsTopN,
    statusIndex := statusIndex,
    scheduleIndex := scheduleIndex }

-- ============ Helper lemmas ============

theorem assocGet_assocSet_self {κ β : Type} [DecidableEq κ]
    (m : List (κ × β)) (k : κ) (v : β) : assocGet (assocSet m k v) k = some v := by
  induction m with
  | nil => simp [assocGet, assocSet]
  | cons head rest ih =>
    obtain ⟨k2, v2⟩ := head
    by_cases h : k2 = k
    · simp [assocGet, assocSet, h]
    · simp [assocGet, assocSet, h, ih]

theorem mem_of_assocGet_eq_some {κ β : Type} [DecidableEq κ]
    {m : List (κ × β)} {k : κ} {v : β} (h : assocGet m k = some v) : (k, v) ∈ m := by
  induction m with
  | nil => simp [assocGet] at h
  | cons head rest ih =>
    obtain ⟨k2, v2⟩ := head
    by_cases hk : k2 = k
    · subst hk
      simp [assocGet] at h
      subst h
      exact List.mem_cons_self _ _
    · simp [assocGet, hk] at h
      exact List.mem_cons_of_mem _ (ih h)

theorem assocGet_eq_some_of_mem {κ β : Type} [DecidableEq κ]
    {m : List (κ × β)} {k : κ} {v : β} (hnd : (m.map Prod.fst).Nodup)
    (hm : (k, v) ∈ m) : assocGet m k = some v := by
  induction m with
  | nil => simp at hm
  | cons head rest ih =>
    obtain ⟨k2, v2⟩ := head
    simp only [List.map_cons, List.nodup_cons] at hnd
    rcases List.mem_cons.mp hm with heq | hmem
    · injection heq with hk hv
      subst hk
      subst hv
      simp [assocGet]
    · have hk2 : k2 ≠ k := by
        intro hcontra
        subst hcontra
        exact hnd.1 (List.mem_map_of_mem Prod.fst hmem)
      simp [assocGet, hk2]
      exact ih hnd.2 hmem

-- ============ C7 ============

/-- C7: adding a player to the watchlist is idempotent (already-present ids
leave the stored list unchanged, otherwise the id is appended exactly
once), and deleting a player id removes every occurrence of it while
keeping all the other ids in their original order. -/
theorem claim_C7_watchlist_add_remove (existing : Option Watchlist)
    (playerId : Int) (clock : Clock) :
    ((watchlistPost existing playerId clock).playerIds =
      (if playerId ∈ (existing.map Watchlist.playerIds).getD [] then
        (existing.map Watchlist.playerIds).getD []
      else (existing.map Watchlist.playerIds).getD [] ++ [playerId]))
    ∧ playerId ∉ (watchlistDelete existing playerId clock).playerIds
    ∧ (watchlistDelete existing playerId clock).playerIds.Sublist
        ((existing.map Watchlist.playerIds).getD [])
    ∧ ∀ q : Int, (watchlistDelete existing playerId clock).playerIds.count q =
        (if q = playerId then 0
         else ((existing.map Watchlist.playerIds).getD []).count q) := by
  refine ⟨?_, ?_, ?_, ?_⟩
  · cases existing with
    | none => simp [watchlistPost]
    | some w =>
      simp only [watchlistPost, Option.getD_some, Option.map_some]
      by_cases h : playerId ∈ w.playerIds
      · simp [h]
      · simp [h]
  · cases existing with
    | none => simp [watchlistDelete]
    | some w =>
      simp [watchlistDelete, List.mem_filter]
  · cases existing with
    | none => simp [watchlistDelete]
    | some w =>
      simp only [watchlistDelete, Option.map_some, Option.getD_some]
      exact List.filter_sublist w.playerIds
  · intro q
    cases existing with
    | none => simp [watchlistDelete]
    | some w =>
      by_cases h : q = playerId
      · subst h
        simp [watchlistDelete, List.count_eq_zero, List.mem_filter]
      · simp only [watchlistDelete, Option.map_some, Option.getD_some, if_neg h]
        refine List.count_filter ?_
        simp [h]

-- ============ C8 ============

/-- C8: after `fileStorage.storeSnapshot`, the stored history for the
snapshot's league and season has at most `MAX_HISTORY_LENGTH` entries, its
first entry is the snapshot's `fetchedAt`, and `getLatestSnapshot` for the
same league and season returns the snapshot just stored. -/
theorem claim_C8_store_snapshot (st : FileStore) (snapshot : LeagueSnapshot) :
    ((assocGet (fileStoreSnapshot snapshot st).historyFiles
        (snapshot.leagueId, snapshot.seasonId)).getD []).length ≤ MAX_HISTORY_LENGTH
    ∧ ((assocGet (fileStoreSnapshot snapshot st).historyFiles
        (snapshot.leagueId, snapshot.seasonId)).getD []).head? =
        some snapshot.fetchedAt
    ∧ (fileGetLatestSnapshot snapshot.leagueId snapshot.seasonId
        (fileStoreSnapshot snapshot st)).1 = some snapshot := by
  have hhist :
      assocGet (fileStoreSnapshot snapshot st).historyFiles
        (snapshot.leagueId, snapshot.seasonId) =
      some (let history1 := snapshot.fetchedAt ::
              ((assocGet st.historyFiles (snapshot.leagueId, snapshot.seasonId)).getD [])
            if MAX_HISTORY_LENGTH < history1.length then
              history1.take MAX_HISTORY_LENGTH
            else history1) := by
    simp only [fileStoreSnapshot]
    exact assocGet_assocSet_self ..
  refine ⟨?_, ?_, ?_⟩
  · rw [hhist]
    simp only [Option.getD_some]
    split
    · simp only [List.length_take]
      exact Nat.min_le_left MAX_HISTORY_LENGTH _
    · next h =>
      simp only [not_lt] at h
      exact h
  · rw [hhist]
    simp only [Option.getD_some]
    split
    · next h =>
      have hpos : 0 < MAX_HISTORY_LENGTH := by decide
      cases hml : MAX_HISTORY_LENGTH with
      | zero => omega
      | succ n => simp [hml, List.take_succ_cons]
    · simp
  · simp only [fileGetLatestSnapshot, fileStoreSnapshot]
    exact assocGet_assocSet_self ..

-- ============ C9 ============

/-- C9: `fileStorage.getPreviousSnapshot` writes nothing, returns `null`
when the history holds fewer than two timestamps, and otherwise returns
the snapshot file stored under `history[1]`, which is the second-newest
timestamp when the history is ordered newest first. -/
theorem claim_C9_previous_snapshot (leagueId seasonId : Int) (st : FileStore) :
    (fileGetPreviousSnapshot leagueId seasonId st).2 = st
    ∧ (((assocGet st.historyFiles (leagueId, seasonId)).getD []).length < 2 →
        (fileGetPreviousSnapshot leagueId seasonId st).1 = none)
    ∧ ∀ t0 t1 rest,
        (assocGet st.historyFiles (leagueId, seasonId)).getD [] = t0 :: t1 :: rest →
        (t0 :: t1 :: rest).Pairwise (fun a b => b < a) →
        (fileGetPreviousSnapshot leagueId seasonId st).1 =
          assocGet st.snapshotFiles (leagueId, seasonId, t1)
        ∧ t1 < t0 ∧ ∀ t ∈ rest, t < t1 := by
  refine ⟨?_, ?_, ?_⟩
  · simp only [fileGetPreviousSnapshot]
    split
    · rfl
    · split <;> rfl
  · intro hlen
    simp [fileGetPreviousSnapshot, hlen]
  · intro t0 t1 rest hh hsorted
    have hlen : ¬ ((assocGet st.historyFiles (leagueId, seasonId)).getD []).length < 2 := by
      rw [hh]
      simp
    refine ⟨?_, ?_, ?_⟩
    · simp only [fileGetPreviousSnapshot, hh] at hlen ⊢
      have hn : ¬ (rest.length + 1 + 1 < 2) := by omega
      simp [hn]
    · exact (List.pairwise_cons.mp hsorted).1 t1 (List.mem_cons_self _ _)
    · intro t ht
      exact (List.pairwise_cons.mp (List.pairwise_cons.mp hsorted).2).1 t ht

/-- A minimal concrete snapshot used by storage witnesses. -/
def tinySnap : LeagueSnapshot :=
  { fetchedAt := 20, leagueId := 1, seasonId := 2, week := 1, teams := [],
    myTeamId := 1, freeAgentsTopN := [], statusIndex := [], scheduleIndex := [] }

/-- A concrete store with a three-entry history, used by the C9 witness. -/
def c9store : FileStore :=
  { latestFiles := [],
    historyFiles := [((1, 2), [30, 20, 10])],
    snapshotFiles := [((1, 2, 20), tinySnap)] }

/-- Witness for C9 at a concrete store: the hypotheses hold and the read
returns the snapshot under the second-newest timestamp without touching
the store. -/
theorem claim_C9_previous_snapshot_witness :
    (fileGetPreviousSnapshot 1 2 c9store).1 = some tinySnap
    ∧ (fileGetPreviousSnapshot 1 2 c9store).2 = c9store := by
  have h := claim_C9_previous_snapshot 1 2 c9store
  have h3 := h.2.2 30 20 [10] (by decide) (by decide)
  refine ⟨?_, h.1⟩
  rw [h3.1]
  decide

-- ============ C1 ============

/-- C1: during a refresh, the Telegram send is attempted precisely when the
smart-alert list generated from the snapshot and diff contains an alert of
HIGH or MEDIUM priority, so an all-LOW or empty alert list sends
nothing. -/
theorem claim_C1_alert_gating (snapshot : LeagueSnapshot) (diff : SnapshotDiff)
    (watchlist : Option Watchlist)
    (recentTransactions : Option (List LeagueTransaction)) (clock : Clock) :
    refreshAttemptsSend snapshot diff watchlist recentTransactions clock = true ↔
    ∃ a ∈ generateSmartAlerts snapshot diff watchlist recentTransactions clock,
      a.priority = Priority.HIGH ∨ a.priority = Priority.MEDIUM := by
  simp [refreshAttemptsSend, hasActionableAlerts, List.any_eq_true]

-- ============ C2 / C3 ============

/-- The roster of the current snapshot's own team, as the diff code reads
it (`myTeam?.roster`). -/
def myRosterOf (c : LeagueSnapshot) : List RosterEntry :=
  ((c.teams.find? (fun t => t.id = c.myTeamId)).bind Team.roster).getD []

theorem statusChanges_eq (p c : LeagueSnapshot) :
    (calculateSnapshotDiff (some p) c).statusChanges =
      c.statusIndex.filterMap (statusChangeFor p c) := rfl

theorem newTopWaiverCandidates_eq (p c : LeagueSnapshot) :
    (calculateSnapshotDiff (some p) c).newTopWaiverCandidates =
      c.freeAgentsTopN.filter (fun fa =>
        !((p.freeAgentsTopN.map (fun x => x.player.id)).contains fa.player.id)) := rfl

theorem mem_statusChanges_elim {p c : LeagueSnapshot} {sc : StatusChange}
    (h : sc ∈ (calculateSnapshotDiff (some p) c).statusChanges) :
    ∃ cs, (sc.playerId, cs) ∈ c.statusIndex ∧
      ∃ ps, assocGet p.statusIndex sc.playerId = some ps ∧
        ps.status ≠ cs.status ∧ sc.previousStatus = ps.status ∧
        sc.currentStatus = cs.status ∧
        (sc.isMyPlayer = true ↔ ∃ e ∈ myRosterOf c, e.playerId = sc.playerId) := by
  rw [statusChanges_eq] at h
  obtain ⟨entry, hmem, hf⟩ := List.mem_filterMap.mp h
  simp only [statusChangeFor] at hf
  cases hget : assocGet p.statusIndex entry.1 with
  | none => rw [hget] at hf; simp at hf
  | some prevE =>
    rw [hget] at hf
    by_cases hne : prevE.status ≠ entry.2.status
    · simp only [if_pos hne] at hf
      obtain rfl := Option.some.inj hf
      refine ⟨entry.2, ?_, prevE, hget, hne, rfl, rfl, ?_⟩
      · exact Prod.mk.eta ▸ hmem
      · unfold myRosterOf
        cases hr : (c.teams.find? (fun t => t.id = c.myTeamId)).bind Team.roster with
        | none => simp [hr]
        | some roster => simp [hr, List.find?_isSome]
    · simp only [if_neg hne] at hf
      simp at hf

theorem mem_statusChanges_intro {p c : LeagueSnapshot} {pid : Int}
    {ps cs : StatusEntry} (hp : assocGet p.statusIndex pid = some ps)
    (hcm : (pid, cs) ∈ c.statusIndex) (hne : ps.status ≠ cs.status) :
    ∃ sc ∈ (calculateSnapshotDiff (some p) c).statusChanges, sc.playerId = pid := by
  rw [statusChanges_eq]
  have hf : (statusChangeFor p c (pid, cs)).isSome = true := by
    unfold statusChangeFor
    simp [hp, hne]
  cases hv : statusChangeFor p c (pid, cs) with
  | none => rw [hv] at hf; simp at hf
  | some sc =>
    refine ⟨sc, List.mem_filterMap.mpr ⟨(pid, cs), hcm, hv⟩, ?_⟩
    simp only [statusChangeFor] at hv
    rw [hp] at hv
    simp only [if_pos hne] at hv
    obtain rfl := Option.some.inj hv
    rfl

/-- C2: `calculateSnapshotDiff` reports a status change exactly for the
player ids present in both status indexes with differing status values;
each reported change carries that player's previous and current status;
ids present in only one index produce no entry. -/
theorem claim_C2_status_diff (p c : LeagueSnapshot) (pid : Int)
    (hc : (c.statusIndex.map Prod.fst).Nodup) :
    ((∃ sc ∈ (calculateSnapshotDiff (some p) c).statusChanges, sc.playerId = pid) ↔
      ∃ ps cs, assocGet p.statusIndex pid = some ps ∧
        assocGet c.statusIndex pid = some cs ∧ ps.status ≠ cs.status)
    ∧ ∀ sc ∈ (calculateSnapshotDiff (some p) c).statusChanges,
        ∃ ps cs, assocGet p.statusIndex sc.playerId = some ps ∧
          assocGet c.statusIndex sc.playerId = some cs ∧
          sc.previousStatus = ps.status ∧ sc.currentStatus = cs.status := by
  constructor
  · constructor
    · rintro ⟨sc, hmem, rfl⟩
      obtain ⟨cs, hcm, ps, hp, hne, -, -, -⟩ := mem_statusChanges_elim hmem
      exact ⟨ps, cs, hp, assocGet_eq_some_of_mem hc hcm, hne⟩
    · rintro ⟨ps, cs, hp, hcget, hne⟩
      exact mem_statusChanges_intro hp (mem_of_assocGet_eq_some hcget) hne
  · intro sc hmem
    obtain ⟨cs, hcm, ps, hp, hne, hprev, hcur, -⟩ := mem_statusChanges_elim hmem
    exact ⟨ps, cs, hp, assocGet_eq_some_of_mem hc hcm, hprev, hcur⟩

/-- Concrete previous snapshot for the C2 witness. -/
def snapPrevW : LeagueSnapshot :=
  { fetchedAt := 0, leagueId := 1, seasonId := 2026, week := 1, teams := [],
    myTeamId := 1, freeAgentsTopN := [],
    statusIndex := [(10, ⟨.ACTIVE, none⟩), (11, ⟨.OUT, none⟩)],
    scheduleIndex := [] }

/-- Concrete current snapshot for the C2 witness. -/
def snapCurW : LeagueSnapshot :=
  { fetchedAt := 5, leagueId := 1, seasonId := 2026, week := 1, teams := [],
    myTeamId := 1, freeAgentsTopN := [],
    statusIndex := [(10, ⟨.OUT, none⟩), (12, ⟨.ACTIVE, none⟩)],
    scheduleIndex := [] }

/-- Witness for C2: on concrete snapshots with distinct index keys, player
10 (in both indexes, status changed) is reported. -/
theorem claim_C2_status_diff_witness :
    (snapCurW.statusIndex.map Prod.fst).Nodup ∧
    (∃ sc ∈ (calculateSnapshotDiff (some snapPrevW) snapCurW).statusChanges,
      sc.playerId = 10) := by
  have hnd : (snapCurW.statusIndex.map Prod.fst).Nodup := by decide
  refine ⟨hnd, ?_⟩
  exact ((claim_C2_status_diff snapPrevW snapCurW 10 hnd).1).mpr
    ⟨⟨.ACTIVE, none⟩, ⟨.OUT, none⟩, by decide, by decide, by decide⟩

/-- C3: `significantChanges` holds exactly when a reported status change
concerns my roster, at least three current top free agents are new, or the
matchup week changed; with no previous snapshot every diff list is empty
and both flags are false.  `isMyPlayer` of a reported change holds exactly
when the player is on my roster in the current snapshot. -/
theorem claim_C3_significance (current : LeagueSnapshot) :
    (∀ previous : LeagueSnapshot,
      ((calculateSnapshotDiff (some previous) current).significantChanges = true ↔
        ((∃ sc ∈ (calculateSnapshotDiff (some previous) current).statusChanges,
            sc.isMyPlayer = true)
         ∨ 3 ≤ (current.freeAgentsTopN.filter (fun fa =>
              !((previous.freeAgentsTopN.map (fun x => x.player.id)).contains
                fa.player.id))).length
         ∨ previous.week ≠ current.week))
      ∧ ∀ sc ∈ (calculateSnapshotDiff (some previous) current).statusChanges,
          (sc.isMyPlayer = true ↔ ∃ e ∈ myRosterOf current, e.playerId = sc.playerId))
    ∧ (calculateSnapshotDiff none current).statusChanges = []
    ∧ (calculateSnapshotDiff none current).newTopWaiverCandidates = []
    ∧ (calculateSnapshotDiff none current).removedTopWaiverCandidates = []
    ∧ (calculateSnapshotDiff none current).weekChanged = false
    ∧ (calculateSnapshotDiff none current).significantChanges = false := by
  refine ⟨fun previous => ⟨?_, ?_⟩, rfl, rfl, rfl, rfl, rfl⟩
  · have hsig : (calculateSnapshotDiff (some previous) current).significantChanges =
        (decide (0 < ((calculateSnapshotDiff (some previous) current).statusChanges.filter
            (fun sc => sc.isMyPlayer)).length) ||
          decide (3 ≤ (calculateSnapshotDiff (some previous)
            current).newTopWaiverCandidates.length) ||
          decide (previous.week ≠ current.week)) := rfl
    rw [hsig, newTopWaiverCandidates_eq]
    simp only [Bool.or_eq_true, decide_eq_true_eq]
    rw [List.length_pos_iff_exists_mem]
    simp only [List.mem_filter]
    constructor
    · rintro ((⟨a, ⟨ha, hmy⟩⟩ | hwv) | hwk)
      · exact Or.inl ⟨a, ha, hmy⟩
      · exact Or.inr (Or.inl hwv)
      · exact Or.inr (Or.inr hwk)
    · rintro (⟨a, ha, hmy⟩ | hwv | hwk)
      · exact Or.inl (Or.inl ⟨a, ⟨ha, hmy⟩⟩)
      · exact Or.inl (Or.inr hwv)
      · exact Or.inr hwk
  · intro sc hmem
    obtain ⟨-, -, -, -, -, -, -, hiff⟩ := mem_statusChanges_elim hmem
    exact hiff

-- ============ C4 ============

/-- A snapshot whose own roster holds one OUT player (drives a
`ROSTER_INJURY` alert). -/
def c4snap : LeagueSnapshot :=
  { fetchedAt := 0, leagueId := 1, seasonId := 2026, week := 1,
    teams := [{ id := 1,
                roster := some [{ playerId := 10,
                                  player := { id := 10, name := "A",
                                              nbaTeamId := 1, status := .OUT },
                                  lineupSlotId := 0 }] }],
    myTeamId := 1, freeAgentsTopN := [], statusIndex := [], scheduleIndex := [] }

/-- An empty diff. -/
def c4diff : SnapshotDiff :=
  { statusChanges := [], newTopWaiverCandidates := [],
    removedTopWaiverCandidates := [], weekChanged := false,
    significantChanges := false }

/-- Counterexample to C4 as stated: with all four arguments fixed, two
invocations of `generateSmartAlerts` at different clock readings
(`Date.now()` values) return different alert lists — the function reads
the ambient clock, which is outside its arguments. -/
theorem claim_C4_counterexample :
    generateSmartAlerts c4snap c4diff none none { nowMs := 0, today := 0 } ≠
      generateSmartAlerts c4snap c4diff none none { nowMs := 1, today := 0 } := by
  decide

/-- C4 (amended): `generateSmartAlerts` is deterministic once the ambient
clock reading (`Date.now()` and the current date, used for alert
timestamps and schedule windows) is fixed along with the snapshot, diff,
watchlist and transaction list. -/
theorem claim_C4_deterministic_given_clock (snapshot : LeagueSnapshot)
    (diff : SnapshotDiff) (watchlist : Option Watchlist)
    (recentTransactions : Option (List LeagueTransaction)) (clk1 clk2 : Clock)
    (h : clk1 = clk2) :
    generateSmartAlerts snapshot diff watchlist recentTransactions clk1 =
      generateSmartAlerts snapshot diff watchlist recentTransactions clk2 := by
  rw [h]

/-- Witness for the amended C4 at concrete arguments and equal clocks. -/
theorem claim_C4_deterministic_given_clock_witness :
    generateSmartAlerts c4snap c4diff none none { nowMs := 7, today := 3 } =
      generateSmartAlerts c4snap c4diff none none { nowMs := 7, today := 3 } :=
  claim_C4_deterministic_given_clock c4snap c4diff none none _ _ rfl

-- ============ C5 ============

theorem mem_insertSorted {α : Type} (le : α → α → Bool) (x a : α) :
    ∀ l : List α, a ∈ insertSorted le x l ↔ a = x ∨ a ∈ l := by
  intro l
  induction l with
  | nil => simp [insertSorted]
  | cons y ys ih =>
    by_cases h : le y x = true
    · simp only [insertSorted, if_pos h, List.mem_cons, ih]
      tauto
    · simp only [insertSorted, if_neg h, List.mem_cons]

theorem mem_foldl_insertSorted {α : Type} (le : α → α → Bool) (a : α) :
    ∀ (l acc : List α),
      a ∈ l.foldl (fun acc x => insertSorted le x acc) acc ↔ a ∈ acc ∨ a ∈ l := by
  intro l
  induction l with
  | nil => simp
  | cons x xs ih =>
    intro acc
    simp only [List.foldl_cons, ih, mem_insertSorted, List.mem_cons]
    tauto

theorem mem_jsSortBy {α : Type} (le : α → α → Bool) (a : α) (l : List α) :
    a ∈ jsSortBy le l ↔ a ∈ l := by
  simp [jsSortBy, mem_foldl_insertSorted]

theorem pairwise_insertSorted {α : Type} (le : α → α → Bool)
    (htrans : ∀ a b c, le a b = true → le b c = true → le a c = true)
    (htotal : ∀ a b, (le a b || le b a) = true) (x : α) :
    ∀ {l : List α}, l.Pairwise (fun a b => le a b = true) →
      (insertSorted le x l).Pairwise (fun a b => le a b = true) := by
  intro l
  induction l with
  | nil => intro _; simp [insertSorted]
  | cons y ys ih =>
    intro h
    obtain ⟨hy, hys⟩ := List.pairwise_cons.mp h
    by_cases hyx : le y x = true
    · rw [insertSorted, if_pos hyx]
      refine List.pairwise_cons.mpr ⟨?_, ih hys⟩
      intro z hz
      rcases (mem_insertSorted le x z ys).mp hz with rfl | hzys
      · exact hyx
      · exact hy z hzys
    · rw [insertSorted, if_neg hyx]
      have hxy : le x y = true := by
        have := htotal y x
        rcases Bool.or_eq_true_iff.mp this with h1 | h1
        · exact absurd h1 hyx
        · exact h1
      refine List.pairwise_cons.mpr ⟨?_, h⟩
      intro z hz
      rcases List.mem_cons.mp hz with rfl | hzys
      · exact hxy
      · exact htrans x y z hxy (hy z hzys)

theorem sorted_foldl_insertSorted {α : Type} (le : α → α → Bool)
    (htrans : ∀ a b c, le a b = true → le b c = true → le a c = true)
    (htotal : ∀ a b, (le a b || le b a) = true) :
    ∀ (l acc : List α), acc.Pairwise (fun a b => le a b = true) →
      (l.foldl (fun acc x => insertSorted le x acc) acc).Pairwise
        (fun a b => le a b = true) := by
  intro l
  induction l with
  | nil => intro acc h; simpa using h
  | cons x xs ih =>
    intro acc h
    simp only [List.foldl_cons]
    exact ih _ (pairwise_insertSorted le htrans htotal x h)

theorem sorted_jsSortBy {α : Type} (le : α → α → Bool)
    (htrans : ∀ a b c, le a b = true → le b c = true → le a c = true)
    (htotal : ∀ a b, (le a b || le b a) = true) (l : List α) :
    (jsSortBy le l).Pairwise (fun a b => le a b = true) :=
  sorted_foldl_insertSorted le htrans htotal l [] (by simp)

theorem assignRanks_length (i : Nat) (l : List WaiverRecommendation) :
    (assignRanks i l).length = l.length := by
  induction l generalizing i with
  | nil => rfl
  | cons r rs ih => simp [assignRanks, ih]

theorem mem_assignRanks {r : WaiverRecommendation} :
    ∀ {i : Nat} {l : List WaiverRecommendation}, r ∈ assignRanks i l →
      ∃ r0 ∈ l, r.player = r0.player := by
  intro i l
  induction l generalizing i with
  | nil => intro h; simp [assignRanks] at h
  | cons r0 rs ih =>
    intro h
    rcases List.mem_cons.mp h with heq | hmem
    · exact ⟨r0, List.mem_cons_self _ _, by rw [heq]⟩
    · obtain ⟨r1, hr1, hp⟩ := ih hmem
      exact ⟨r1, List.mem_cons_of_mem _ hr1, hp⟩

theorem map_score_assignRanks (i : Nat) (l : List WaiverRecommendation) :
    (assignRanks i l).map WaiverRecommendation.score =
      l.map WaiverRecommendation.score := by
  induction l generalizing i with
  | nil => rfl
  | cons r rs ih => simp [assignRanks, ih]

theorem map_rank_take_assignRanks :
    ∀ (l : List WaiverRecommendation) (i n : Nat),
      ((assignRanks i l).take n).map WaiverRecommendation.rank =
        List.range' (i + 1) (min n l.length) := by
  intro l
  induction l with
  | nil => intro i n; simp [assignRanks]
  | cons r rs ih =>
    intro i n
    cases n with
    | zero => simp
    | succ m =>
      simp only [assignRanks, List.take_succ_cons, List.map_cons, List.length_cons]
      rw [ih (i + 1) m]
      have hmin : min (m + 1) (rs.length + 1) = (min m rs.length) + 1 :=
        Nat.succ_min_succ m rs.length
      rw [hmin]
      simp [List.range']

theorem waiverRecFor_player {snapshot : LeagueSnapshot}
    {ih : Option InjuryHistoryIndex} {fa : FreeAgentEntry}
    {r0 : WaiverRecommendation} (h : waiverRecFor snapshot ih fa = some r0) :
    r0.player = fa.player ∧ isPlayerInjured fa.player = false := by
  cases hinj : isPlayerInjured fa.player with
  | true => simp [waiverRecFor, hinj] at h
  | false =>
    simp only [waiverRecFor, hinj, Bool.false_eq_true, if_false] at h
    obtain rfl := Option.some.inj h
    exact ⟨rfl, rfl⟩

/-- C5: every waiver recommendation is for a free agent who is not OUT, on
injury reserve, or suspended; the list has at most `limit` entries, is
sorted by score descending, and its ranks are exactly 1, 2, 3, ... in list
order. -/
theorem claim_C5_waiver_recommendations (snapshot : LeagueSnapshot)
    (limit : Nat) (injuryHistory : Option InjuryHistoryIndex) :
    (∀ r ∈ getWaiverRecommendations snapshot limit injuryHistory,
      r.player.status ∉ INJURED_STATUSES)
    ∧ (getWaiverRecommendations snapshot limit injuryHistory).length ≤ limit
    ∧ (getWaiverRecommendations snapshot limit injuryHistory).Pairwise
        (fun a b => b.score ≤ a.score)
    ∧ (getWaiverRecommendations snapshot limit injuryHistory).map
        WaiverRecommendation.rank =
      List.range' 1 (getWaiverRecommendations snapshot limit injuryHistory).length := by
  refine ⟨?_, ?_, ?_, ?_⟩
  · intro r hr
    simp only [getWaiverRecommendations] at hr
    have hr2 := List.mem_of_mem_take hr
    obtain ⟨r0, hr0, hp⟩ := mem_assignRanks hr2
    have hr3 := (mem_jsSortBy _ _ _).mp hr0
    obtain ⟨fa, -, hf⟩ := List.mem_filterMap.mp hr3
    obtain ⟨hpl, hinj⟩ := waiverRecFor_player hf
    rw [hp, hpl]
    simp only [isPlayerInjured] at hinj
    intro hmem
    simp [hmem] at hinj
  · simp only [getWaiverRecommendations, List.length_take]
    exact Nat.min_le_left _ _
  · simp only [getWaiverRecommendations]
    have htrans : ∀ a b c : WaiverRecommendation,
        decide (b.score ≤ a.score) = true → decide (c.score ≤ b.score) = true →
        decide (c.score ≤ a.score) = true := by
      intro a b c hab hbc
      simp only [decide_eq_true_eq] at *
      exact le_trans hbc hab
    have htotal : ∀ a b : WaiverRecommendation,
        (decide (b.score ≤ a.score) || decide (a.score ≤ b.score)) = true := by
      intro a b
      rcases le_total a.score b.score with h | h <;> simp [h]
    have hsorted := sorted_jsSortBy (fun a b => decide (b.score ≤ a.score))
      htrans htotal
      (snapshot.freeAgentsTopN.filterMap (waiverRecFor snapshot injuryHistory))
    have hsorted2 : (jsSortBy (fun a b => decide (b.score ≤ a.score))
        (snapshot.freeAgentsTopN.filterMap (waiverRecFor snapshot injuryHistory))).Pairwise
        (fun a b => b.score ≤ a.score) :=
      hsorted.imp (fun h => by simpa using h)
    have hmap : List.Pairwise (fun a b : ℚ => b ≤ a)
        ((jsSortBy (fun a b => decide (b.score ≤ a.score))
          (snapshot.freeAgentsTopN.filterMap (waiverRecFor snapshot injuryHistory))).map
            WaiverRecommendation.score) :=
      List.pairwise_map.mpr hsorted2
    rw [← map_score_assignRanks 0] at hmap
    exact (List.pairwise_map.mp hmap).sublist (List.take_sublist _ _)
  · simp only [getWaiverRecommendations]
    rw [map_rank_take_assignRanks]
    rw [List.length_take, assignRanks_length]

/-- A concrete snapshot with one healthy and one OUT free agent, used by
the C5 witness. -/
def c5snap : LeagueSnapshot :=
  { fetchedAt := 0, leagueId := 1, seasonId := 2026, week := 1, teams := [],
    myTeamId := 1,
    freeAgentsTopN :=
      [{ player := { id := 20, name := "H", nbaTeamId := 1, status := .ACTIVE,
                     stats := some { seasonAvg := some 10, projectedAvg := some 20 } },
         score := 0 },
       { player := { id := 21, name := "I", nbaTeamId := 2, status := .OUT },
         score := 5 }],
    statusIndex := [], scheduleIndex := [] }

/-- A default recommendation used only to take the head of a list. -/
def dummyRec : WaiverRecommendation :=
  { rank := 0, player := { id := 0, name := "", nbaTeamId := 0 }, score := 0,
    projectedPointsNext7 := 0, gamesNext7 := 0, recentTrend := 0, reasons := [],
    confidence := .MEDIUM }

/-- Witness for C5: the concrete recommendation list is nonempty, its head
is a healthy player, and the list respects the limit. -/
theorem claim_C5_waiver_recommendations_witness :
    ((getWaiverRecommendations c5snap 10 none).headD dummyRec ∈
      getWaiverRecommendations c5snap 10 none)
    ∧ ((getWaiverRecommendations c5snap 10 none).headD dummyRec).player.status ∉
        INJURED_STATUSES
    ∧ (getWaiverRecommendations c5snap 10 none).length ≤ 10 := by
  have h := claim_C5_waiver_recommendations c5snap 10 none
  have hmem : (getWaiverRecommendations c5snap 10 none).headD dummyRec ∈
      getWaiverRecommendations c5snap 10 none := by with_unfolding_all decide
  exact ⟨hmem, h.1 _ hmem, h.2.1⟩

-- ============ C10 ============

/-- The player ids a streaming slot recommends (the add and the drop, when
present). -/
def slotPlayerIds (slot : StreamingSlot) : List Int :=
  (slot.recommendedAdd.map Player.id).toList ++
    (slot.recommendedDrop.map Player.id).toList

theorem findStreamingAdd_not_used {date : Int} {avail : List FreeAgentEntry}
    {sched : List (Int × NBATeamSchedule)} {used : List Int} {fa : FreeAgentEntry}
    (h : findStreamingAdd date avail sched used = some fa) :
    used.contains fa.player.id = false := by
  simp only [findStreamingAdd] at h
  have hmem := List.mem_of_mem_head? (Option.mem_def.mpr h)
  have hmem2 := (mem_jsSortBy _ _ _).mp hmem
  have hpred := List.of_mem_filter hmem2
  by_cases hin : fa.player.id ∈ used
  · simp [hin] at hpred
  · simp [hin]

theorem streamDay_invariant (snapshot : LeagueSnapshot)
    (cands : List RosterEntry) (adds : Nat) (st : StreamState) (date : Int)
    (hcoh : ∀ e ∈ cands, e.playerId = e.player.id)
    (h1 : st.gamesGained = st.addsUsed) (h2 : st.addsUsed ≤ adds)
    (h3 : ∀ slot ∈ st.plan, ∀ pid ∈ slotPlayerIds slot, pid ∈ st.used)
    (h4 : st.plan.Pairwise (fun s1 s2 =>
      ∀ pid ∈ slotPlayerIds s1, pid ∉ slotPlayerIds s2)) :
    (streamDay snapshot cands adds st date).gamesGained =
      (streamDay snapshot cands adds st date).addsUsed
    ∧ (streamDay snapshot cands adds st date).addsUsed ≤ adds
    ∧ (∀ slot ∈ (streamDay snapshot cands adds st date).plan,
        ∀ pid ∈ slotPlayerIds slot, pid ∈ (streamDay snapshot cands adds st date).used)
    ∧ (streamDay snapshot cands adds st date).plan.Pairwise (fun s1 s2 =>
        ∀ pid ∈ slotPlayerIds s1, pid ∉ slotPlayerIds s2)
    ∧ (streamDay snapshot cands adds st date).plan.length = st.plan.length + 1 := by
  have hEmptySlot : ∀ (dow r : String) (g : Nat),
      slotPlayerIds { date := date, dayOfWeek := dow, reason := r, gamesGained := g } = [] := by
    intro dow r g
    rfl
  have hExtendNoIds : ∀ slot2 : StreamingSlot, slotPlayerIds slot2 = [] →
      ((∀ slot ∈ st.plan ++ [slot2], ∀ pid ∈ slotPlayerIds slot, pid ∈ st.used)
      ∧ (st.plan ++ [slot2]).Pairwise (fun s1 s2 =>
          ∀ pid ∈ slotPlayerIds s1, pid ∉ slotPlayerIds s2)) := by
    intro slot2 hids
    constructor
    · intro slot hmem pid hpid
      rcases List.mem_append.mp hmem with hold | hnew
      · exact h3 slot hold pid hpid
      · rw [List.mem_singleton.mp hnew, hids] at hpid
        simp at hpid
    · refine List.pairwise_append.mpr ⟨h4, List.pairwise_singleton _ _, ?_⟩
      intro a ha b hb pid _
      rw [List.mem_singleton.mp hb, hids]
      simp
  simp only [streamDay]
  by_cases hfull : adds ≤ st.addsUsed
  · simp only [if_pos hfull]
    obtain ⟨hh3, hh4⟩ := hExtendNoIds _ (hEmptySlot _ _ _)
    exact ⟨h1, h2, hh3, hh4, by simp⟩
  · simp only [if_neg hfull]
    cases hadd : findStreamingAdd date snapshot.freeAgentsTopN
        snapshot.scheduleIndex st.used with
    | none =>
      obtain ⟨hh3, hh4⟩ := hExtendNoIds _ (hEmptySlot _ _ _)
      exact ⟨h1, h2, hh3, hh4, by simp⟩
    | some bestAdd =>
      cases hdrop : cands.find? (fun entry => !(st.used.contains entry.playerId)) with
      | none =>
        obtain ⟨hh3, hh4⟩ := hExtendNoIds _ (hEmptySlot _ _ _)
        exact ⟨h1, h2, hh3, hh4, by simp⟩
      | some dropC =>
        have hdc_mem : dropC ∈ cands := List.mem_of_find?_eq_some hdrop
        have hdc_id : dropC.playerId = dropC.player.id := hcoh dropC hdc_mem
        have haid : st.used.contains bestAdd.player.id = false :=
          findStreamingAdd_not_used hadd
        have hdid : st.used.contains dropC.playerId = false := by
          have hpred := List.find?_some hdrop
          cases hdc : st.used.contains dropC.playerId with
          | true => rw [hdc] at hpred; simp at hpred
          | false => rfl
        have haid2 : bestAdd.player.id ∉ st.used := by
          intro hc
          simp [hc] at haid
        have hdid2 : dropC.player.id ∉ st.used := by
          intro hc
          rw [← hdc_id] at hc
          simp [hc] at hdid
        have hslotids : slotPlayerIds
            { date := date, dayOfWeek := dayOfWeekName date,
              recommendedAdd := some bestAdd.player,
              recommendedDrop := some dropC.player,
              reason := "Add " ++ bestAdd.player.name ++ " (" ++
                (bestAdd.player.nbaTeamAbbrev.getD undefinedStr) ++ ") for game",
              gamesGained := 1 } = [bestAdd.player.id, dropC.player.id] := rfl
        refine ⟨by simp [h1], by exact Nat.lt_of_not_le hfull, ?_, ?_, by simp⟩
        · intro slot hmem pid hpid
          rcases List.mem_append.mp hmem with hold | hnew
          · exact List.mem_append_left _ (h3 slot hold pid hpid)
          · rw [List.mem_singleton.mp hnew] at hpid
            rw [hslotids] at hpid
            apply List.mem_append_right
            rcases List.mem_cons.mp hpid with rfl | hpid2
            · exact List.mem_cons_self _ _
            · rw [List.mem_singleton.mp hpid2, ← hdc_id]
              exact List.mem_cons_of_mem _ (List.mem_singleton.mpr rfl)
        · refine List.pairwise_append.mpr ⟨h4, List.pairwise_singleton _ _, ?_⟩
          intro a ha b hb pid hpida
          have hpid_used : pid ∈ st.used := h3 a ha pid hpida
          rw [List.mem_singleton.mp hb, hslotids]
          intro hc
          rcases List.mem_cons.mp hc with rfl | hc2
          · exact haid2 hpid_used
          · rw [List.mem_singleton.mp hc2] at hpid_used
            exact hdid2 hpid_used


theorem streamDay_fold (snapshot : LeagueSnapshot) (cands : List RosterEntry)
    (adds : Nat) (hcoh : ∀ e ∈ cands, e.playerId = e.player.id) :
    ∀ (days : List Int) (st : StreamState),
      st.gamesGained = st.addsUsed → st.addsUsed ≤ adds →
      (∀ slot ∈ st.plan, ∀ pid ∈ slotPlayerIds slot, pid ∈ st.used) →
      st.plan.Pairwise (fun s1 s2 =>
        ∀ pid ∈ slotPlayerIds s1, pid ∉ slotPlayerIds s2) →
      ((days.foldl (streamDay snapshot cands adds) st).gamesGained =
          (days.foldl (streamDay snapshot cands adds) st).addsUsed
        ∧ (days.foldl (streamDay snapshot cands adds) st).addsUsed ≤ adds
        ∧ (days.foldl (streamDay snapshot cands adds) st).plan.Pairwise
            (fun s1 s2 => ∀ pid ∈ slotPlayerIds s1, pid ∉ slotPlayerIds s2)
        ∧ (days.foldl (streamDay snapshot cands adds) st).plan.length =
            st.plan.length + days.length) := by
  intro days
  induction days with
  | nil =>
    intro st h1 h2 h3 h4
    exact ⟨h1, h2, h4, by simp⟩
  | cons d ds ih =>
    intro st h1 h2 h3 h4
    obtain ⟨s1, s2, s3, s4, s5⟩ :=
      streamDay_invariant snapshot cands adds st d hcoh h1 h2 h3 h4
    obtain ⟨r1, r2, r3, r4⟩ := ih (streamDay snapshot cands adds st d) s1 s2 s3 s4
    refine ⟨r1, r2, r3, ?_⟩
    simp only [List.foldl_cons] at *
    rw [r4, s5]
    simp only [List.length_cons]
    omega

/-- C10 (amended): when the snapshot contains my team and its roster
entries carry coherent player ids (`playerId = player.id`, which nothing
in the code enforces — see the counterexample), the weekly streaming plan
has exactly seven day slots, uses at most `addsPerWeek` adds, counts one
gained game per add, reports a consistent remaining-adds figure, and never
recommends the same player id (as add or drop) in two different slots. -/
theorem claim_C10_weekly_plan (snapshot : LeagueSnapshot) (addsPerWeek : Nat)
    (clock : Clock) (plan : WeeklyStreamingPlan)
    (hcoh : ∀ t ∈ snapshot.teams, ∀ e ∈ t.roster.getD [], e.playerId = e.player.id)
    (h : generateWeeklyStreamingPlan snapshot addsPerWeek clock = some plan) :
    plan.plan.length = 7
    ∧ plan.addsUsed ≤ addsPerWeek
    ∧ plan.addsRemaining + plan.addsUsed = addsPerWeek
    ∧ plan.gamesGained = plan.addsUsed
    ∧ plan.plan.Pairwise (fun s1 s2 =>
        ∀ pid ∈ slotPlayerIds s1, pid ∉ slotPlayerIds s2) := by
  simp only [generateWeeklyStreamingPlan] at h
  cases hmt : snapshot.teams.find? (fun t => t.id = snapshot.myTeamId) with
  | none => rw [hmt] at h; simp at h
  | some myTeam =>
    rw [hmt] at h
    simp only [Option.some.injEq] at h
    have hmem : myTeam ∈ snapshot.teams := List.mem_of_find?_eq_some hmt
    have hcands : ∀ e ∈ getStreamingCandidates myTeam, e.playerId = e.player.id := by
      intro e he
      simp only [getStreamingCandidates] at he
      cases hr : myTeam.roster with
      | none => rw [hr] at he; simp at he
      | some roster =>
        rw [hr] at he
        have he2 : e ∈ roster := List.mem_of_mem_filter he
        have he3 : e ∈ myTeam.roster.getD [] := by rw [hr]; exact he2
        exact hcoh myTeam hmem e he3
    obtain ⟨f1, f2, f3, f4⟩ := streamDay_fold snapshot
      (getStreamingCandidates myTeam) addsPerWeek hcands
      ((List.range 7).map (fun i => clock.today + i))
      { used := [], addsUsed := 0, gamesGained := 0, plan := [] }
      rfl (Nat.zero_le _) (by simp) (by simp)
    rw [← h]
    refine ⟨?_, f2, ?_, f1, f3⟩
    · simpa using f4
    · simp only
      omega

/-- A concrete snapshot with a bench player and one free agent, used by the
C10 witness. -/
def c10snap : LeagueSnapshot :=
  { fetchedAt := 0, leagueId := 1, seasonId := 2026, week := 3,
    teams := [{ id := 1,
                roster := some [{ playerId := 30,
                                  player := { id := 30, name := "B", nbaTeamId := 2 },
                                  lineupSlotId := 12 }] }],
    myTeamId := 1,
    freeAgentsTopN := [{ player := { id := 40, name := "F", nbaTeamId := 1 },
                         score := 3 }],
    statusIndex := [],
    scheduleIndex := [(1, { teamId := 1, gamesByDay := [(0, true)] })] }

/-- The clock used by the C10 witness. -/
def c10clock : Clock := { nowMs := 0, today := 0 }

/-- A default plan used only as a `getD` fallback. -/
def dummyPlan : WeeklyStreamingPlan :=
  { week := 0, weekStartDate := 0, weekEndDate := 0, totalGamesWithStreaming := 0,
    totalGamesWithoutStreaming := 0, gamesGained := 0, addsRemaining := 0,
    addsUsed := 0, plan := [] }

/-- The concrete plan the C10 witness talks about. -/
def c10plan : WeeklyStreamingPlan :=
  (generateWeeklyStreamingPlan c10snap 5 c10clock).getD dummyPlan

/-- Witness for C10: at the concrete snapshot the hypotheses hold and the
plan has seven slots within the adds budget. -/
theorem claim_C10_weekly_plan_witness :
    (∀ t ∈ c10snap.teams, ∀ e ∈ t.roster.getD [], e.playerId = e.player.id)
    ∧ generateWeeklyStreamingPlan c10snap 5 c10clock = some c10plan
    ∧ c10plan.plan.length = 7 ∧ c10plan.addsUsed ≤ 5 := by
  have hcoh : ∀ t ∈ c10snap.teams, ∀ e ∈ t.roster.getD [],
      e.playerId = e.player.id := by decide
  have hp : generateWeeklyStreamingPlan c10snap 5 c10clock = some c10plan := by
    with_unfolding_all decide
  have h := claim_C10_weekly_plan c10snap 5 c10clock c10plan hcoh hp
  exact ⟨hcoh, hp, h.1, h.2.1⟩

/-- A snapshot whose two bench roster entries carry distinct `playerId`s
but the same `player.id`, with a free agent available on two consecutive
days: nothing in the code prevents this, since `transformRosterEntry`
copies both id fields from the ESPN response unchecked. -/
def c10badSnap : LeagueSnapshot :=
  { fetchedAt := 0, leagueId := 1, seasonId := 2026, week := 3,
    teams := [{ id := 1,
                roster := some [
                  { playerId := 31,
                    player := { id := 30, name := "B1", nbaTeamId := 2 },
                    lineupSlotId := 12 },
                  { playerId := 32,
                    player := { id := 30, name := "B2", nbaTeamId := 2 },
                    lineupSlotId := 12 }] }],
    myTeamId := 1,
    freeAgentsTopN :=
      [{ player := { id := 40, name := "F1", nbaTeamId := 1 }, score := 3 },
       { player := { id := 41, name := "F2", nbaTeamId := 1 }, score := 2 }],
    statusIndex := [],
    scheduleIndex := [(1, { teamId := 1, gamesByDay := [(0, true), (1, true)] })] }

/-- The plan the C10 counterexample talks about. -/
def c10badPlan : WeeklyStreamingPlan :=
  (generateWeeklyStreamingPlan c10badSnap 5 c10clock).getD dummyPlan

/-- Counterexample to C10 as stated: on `c10badSnap` (my team present, adds
budget 5) the returned plan recommends player id 30 as the drop of two
different slots — the day loop tracks used drops by `entry.playerId` but
records `entry.player` in the slot, so entries with distinct `playerId`s
and one shared `player.id` defeat the no-repeat property. -/
theorem claim_C10_counterexample :
    generateWeeklyStreamingPlan c10badSnap 5 c10clock = some c10badPlan
    ∧ ¬ c10badPlan.plan.Pairwise (fun s1 s2 =>
        ∀ pid ∈ slotPlayerIds s1, pid ∉ slotPlayerIds s2) := by
  with_unfolding_all decide

-- ============ C6 ============

theorem transformPlayer_id (espnPlayer : ESPNPlayer) :
    (transformPlayer espnPlayer).id = espnPlayer.id := rfl

theorem transformFreeAgentEntry_player {sched : List (Int × NBATeamSchedule)}
    {entry : ESPNFreeAgentResponseEntry} {fa : FreeAgentEntry}
    (h : transformFreeAgentEntry sched entry = some fa) :
    ∃ ep, entry.player = some ep ∧ fa.player = transformPlayer ep := by
  cases hep : entry.player with
  | none => simp [transformFreeAgentEntry, hep] at h
  | some ep =>
    simp only [transformFreeAgentEntry, hep] at h
    obtain rfl := Option.some.inj h
    exact ⟨ep, rfl, rfl⟩

theorem transformRosterEntry_player {re : ESPNRosterEntry} {e : RosterEntry}
    (h : transformRosterEntry re = some e) :
    ∃ ppe, re.playerPoolEntry = some ppe ∧ e.player = transformPlayer ppe.player := by
  cases hppe : re.playerPoolEntry with
  | none => simp [transformRosterEntry, hppe] at h
  | some ppe =>
    simp only [transformRosterEntry, hppe] at h
    obtain rfl := Option.some.inj h
    exact ⟨ppe, rfl, rfl⟩

/-- The ESPN player shared between a roster and the free-agent response in
the C6 counterexample. -/
def c6espnPlayer : ESPNPlayer :=
  { id := 10, fullName := "P", proTeamId := 1, eligibleSlots := [0] }

/-- A snapshot input whose free-agent response repeats a rostered player:
the ESPN request filters by FREEAGENT/WAIVERS status, but
`buildLeagueSnapshot` never checks the response against the rosters. -/
def c6badInput : SnapshotInput :=
  { settings := { id := 1, scoringPeriodId := 1, currentMatchupPeriod := 1,
                  seasonId := 2026 },
    teams := [{ id := 1, abbr := "T1",
                roster := some [{ playerId := 10,
                                  playerPoolEntry := some { player := c6espnPlayer },
                                  lineupSlotId := 0 }] }],
    matchups := [],
    freeAgents := { players := [{ id := 10, player := some c6espnPlayer }] },
    myTeamId := 1,
    nbaSchedule := none }

/-- The clock used by the C6 theorems. -/
def c6clock : Clock := { nowMs := 0, today := 0 }

/-- Counterexample to C6 as stated: `buildLeagueSnapshot` produces a
snapshot whose `freeAgentsTopN` holds a player who is on a team roster of
the same snapshot, because the transform trusts the upstream free-agent
response and performs no roster-disjointness check. -/
theorem claim_C6_counterexample :
    ¬ (∀ fa ∈ (buildLeagueSnapshot c6badInput c6clock).freeAgentsTopN,
        ∀ t ∈ (buildLeagueSnapshot c6badInput c6clock).teams,
          ∀ e ∈ t.roster.getD [], e.player.id ≠ fa.player.id) := by
  with_unfolding_all decide

/-- C6 (amended): provided the free-agent response is disjoint from every
input roster — which is what the ESPN FREEAGENT/WAIVERS request filter is
trusted to deliver — every entry of `freeAgentsTopN` in the built snapshot
refers to a player on no team's roster of that snapshot. -/
theorem claim_C6_free_agents_not_rostered (input : SnapshotInput) (clock : Clock)
    (hdisj : ∀ p ∈ input.freeAgents.players, ∀ t ∈ input.teams,
      ∀ re ∈ t.roster.getD [], ∀ ppe ∈ re.playerPoolEntry.toList,
        ∀ ep ∈ p.player.toList, ppe.player.id ≠ ep.id) :
    ∀ fa ∈ (buildLeagueSnapshot input clock).freeAgentsTopN,
      ∀ t ∈ (buildLeagueSnapshot input clock).teams,
        ∀ e ∈ t.roster.getD [], e.player.id ≠ fa.player.id := by
  intro fa hfa t ht e he
  have hfa2 : fa ∈ transformFreeAgents input.freeAgents
      (buildScheduleIndex (input.nbaSchedule.getD [])
        input.settings.scoringPeriodId 7 clock.today) :=
    List.mem_of_mem_take hfa
  have hfa3 := (mem_jsSortBy _ _ _).mp hfa2
  obtain ⟨pEntry, hpmem, hpf⟩ := List.mem_filterMap.mp hfa3
  obtain ⟨ep, hep, hfap⟩ := transformFreeAgentEntry_player hpf
  have ht2 : t ∈ input.teams.map (fun t => transformTeam t input.myTeamId) := ht
  obtain ⟨et, het, hteq⟩ := List.mem_map.mp ht2
  have he2 : e ∈ (transformTeam et input.myTeamId).roster.getD [] := by
    rw [hteq]; exact he
  cases hr : et.roster with
  | none =>
    rw [show (transformTeam et input.myTeamId).roster =
        et.roster.map (fun entries => entries.filterMap transformRosterEntry)
      from rfl, hr] at he2
    simp at he2
  | some entries =>
    rw [show (transformTeam et input.myTeamId).roster =
        et.roster.map (fun entries => entries.filterMap transformRosterEntry)
      from rfl, hr] at he2
    have he3 : e ∈ entries.filterMap transformRosterEntry := by
      simpa using he2
    obtain ⟨re, hre, hre2⟩ := List.mem_filterMap.mp he3
    obtain ⟨ppe, hppe, hplayer⟩ := transformRosterEntry_player hre2
    have hre3 : re ∈ et.roster.getD [] := by rw [hr]; exact hre
    have hne := hdisj pEntry hpmem et het re hre3 ppe (by simp [hppe])
      ep (by simp [hep])
    rw [hplayer, hfap, transformPlayer_id, transformPlayer_id]
    exact hne

/-- The unrostered free agent of the C6 witness input. -/
def c6espnPlayerQ : ESPNPlayer :=
  { id := 20, fullName := "Q", proTeamId := 2, eligibleSlots := [1] }

/-- A well-formed input: the free agent (id 20) is on no roster. -/
def c6goodInput : SnapshotInput :=
  { settings := { id := 1, scoringPeriodId := 1, currentMatchupPeriod := 1,
                  seasonId := 2026 },
    teams := [{ id := 1, abbr := "T1",
                roster := some [{ playerId := 10,
                                  playerPoolEntry := some { player := c6espnPlayer },
                                  lineupSlotId := 0 }] }],
    matchups := [],
    freeAgents := { players := [{ id := 20, player := some c6espnPlayerQ }] },
    myTeamId := 1,
    nbaSchedule := none }

/-- Witness for the amended C6: the disjointness hypothesis holds of the
well-formed input and the conclusion follows for the built snapshot. -/
theorem claim_C6_free_agents_not_rostered_witness :
    (∀ p ∈ c6goodInput.freeAgents.players, ∀ t ∈ c6goodInput.teams,
      ∀ re ∈ t.roster.getD [], ∀ ppe ∈ re.playerPoolEntry.toList,
        ∀ ep ∈ p.player.toList, ppe.player.id ≠ ep.id)
    ∧ (∀ fa ∈ (buildLeagueSnapshot c6goodInput c6clock).freeAgentsTopN,
        ∀ t ∈ (buildLeagueSnapshot c6goodInput c6clock).teams,
          ∀ e ∈ t.roster.getD [], e.player.id ≠ fa.player.id) :=
  ⟨by decide, claim_C6_free_agents_not_rostered c6goodInput c6clock (by decide)⟩

end FBA
